import Mathlib

/-!
A shallow embedding of the notification dispatch queue of the ws-api
repository: the in-memory notifications repository
(`InMemoryNotificationsRepository`) and the dispatch engine
(`NotificationsService`), together with proofs of the specification
claims about them.

Conventions of the embedding:
* ISO-8601 timestamp strings are represented as natural-number epoch
  milliseconds; lexicographic order on the normalized ISO strings the code
  compares agrees with numeric order on the underlying milliseconds.
* The opaque unique ids minted by `createId` are represented by a
  natural-number counter held in the store.
* JavaScript numbers arriving at the service boundary are represented as
  rationals; `NaN` and the infinities are not representable, but at the one
  spot they could matter (`maxAttempts` resolution) both resolve to the
  same default branch that `0` takes, which rationals do represent.
* Thrown `HttpError`s are represented with `Except`; every operation
  returns its result together with the post-state of the store, so
  mutations made before a throw persist, exactly as in the source.
* `provider.send` is a function returning `Except String ProviderResult`:
  a thrown provider error is the `.error` case, a resolved value the `.ok`
  case.  `Date.parse` is an opaque external function `parseDate`.
-/

namespace WsApi

/-- `String.prototype.trim` on the character list: drop leading and
trailing whitespace. -/
def trimChars (l : List Char) : List Char :=
  ((l.dropWhile Char.isWhitespace).reverse.dropWhile Char.isWhitespace).reverse

/-- `String.prototype.trim` of the JS runtime, modelled directly over the
character sequence. -/
def jsTrim (s : String) : String := ⟨trimChars s.data⟩

/-- `String.prototype.toLowerCase`, modelled directly over the character
sequence. -/
def jsToLower (s : String) : String := ⟨s.data.map Char.toLower⟩

/-- Runtime JavaScript values stored in the open `metadata` bag. -/
inductive JVal where
  | null
  | bool (b : Bool)
  | num (n : Int)
  | str (s : String)
  | arr (elems : List JVal)
  | obj (fields : List (String × JVal))

/-- First-match lookup among object fields (JS property access). -/
def jfieldGet : List (String × JVal) → String → Option JVal
  | [], _ => none
  | (k, v) :: rest, key => if k = key then some v else jfieldGet rest key

/-- Property access `value[key]` on an arbitrary JS value: only plain
objects yield fields, anything else gives `undefined`. -/
def JVal.get : JVal → String → Option JVal
  | .obj fields, key => jfieldGet fields key
  | _, _ => none

/-- Optional-chaining access `metadata?.[key]` on a nullable value. -/
def mget : Option JVal → String → Option JVal
  | some v, key => v.get key
  | none, _ => none

/-- `delete obj[key]` on an object's fields. -/
def jfieldErase (fields : List (String × JVal)) (key : String) :
    List (String × JVal) :=
  fields.filter (fun p => p.1 ≠ key)

/-- Object-literal update: an existing key keeps its position and takes the
new value, a new key is appended (JS object spread semantics). -/
def jfieldSet (fields : List (String × JVal)) (key : String) (v : JVal) :
    List (String × JVal) :=
  if fields.any (fun p => p.1 == key) then
    fields.map (fun p => if p.1 = key then (key, v) else p)
  else fields ++ [(key, v)]

/-- `Array.isArray(metadata)` on a nullable value (`null` is not an array). -/
def isArr : Option JVal → Bool
  | some (.arr _) => true
  | _ => false

/-- `NotificationChannel`. -/
inductive Channel where
  | email
  | sms
  | push
deriving DecidableEq

/-- The lowercase channel name string. -/
def channelName : Channel → String
  | .email => "email"
  | .sms => "sms"
  | .push => "push"

/-- `channel.toUpperCase()` as used in the fallback `lastError` string. -/
def channelUpper : Channel → String
  | .email => "EMAIL"
  | .sms => "SMS"
  | .push => "PUSH"

/-- `CHANNELS.includes(channel)` followed by the cast in
`queueNotification`. -/
def parseChannel (s : String) : Option Channel :=
  if s = "email" then some .email
  else if s = "sms" then some .sms
  else if s = "push" then some .push
  else none

/-- `NotificationStatus`. -/
inductive Status where
  | queued
  | processing
  | retrying
  | sent
  | failed
deriving DecidableEq

/-- `NotificationAuditEvent`. -/
inductive AuditEvent where
  | queued
  | attempt_started
  | attempt_succeeded
  | attempt_failed
  | retry_scheduled
  | retry_requested
  | failed_final
  | fallback_queued
deriving DecidableEq

/-- `NotificationJobRecord`. -/
structure Job where
  id : Nat
  businessId : String
  channel : Channel
  audience : String
  subject : Option String
  message : String
  metadata : Option JVal
  status : Status
  provider : Option String
  attempts : Nat
  maxAttempts : Nat
  nextAttemptAt : Nat
  lastAttemptAt : Option Nat
  sentAt : Option Nat
  failedAt : Option Nat
  lastError : Option String
  createdAt : Nat
  updatedAt : Nat

/-- `NotificationAuditLogRecord`. -/
structure AuditEntry where
  id : Nat
  jobId : Nat
  event : AuditEvent
  channel : Channel
  provider : Option String
  attempt : Option Nat
  message : String
  detail : Option JVal
  createdAt : Nat

/-- The `MemoryStore` slice the notifications module touches, plus the id
counters standing in for `createId`. -/
structure Store where
  notifications : List Job
  auditLogs : List AuditEntry
  nextId : Nat
  nextAuditId : Nat

/-- `CreateNotificationJobParams`. -/
structure CreateJobParams where
  businessId : String
  channel : Channel
  audience : String
  subject : Option String
  message : String
  metadata : Option JVal
  status : Status
  maxAttempts : Nat
  nextAttemptAt : Nat

/-- `UpdateNotificationJobParams`: an outer `some` means the field is
present in the patch, the inner value is the (possibly null) new value. -/
structure JobPatch where
  status : Option Status := none
  provider : Option (Option String) := none
  attempts : Option Nat := none
  nextAttemptAt : Option Nat := none
  lastAttemptAt : Option (Option Nat) := none
  sentAt : Option (Option Nat) := none
  failedAt : Option (Option Nat) := none
  lastError : Option (Option String) := none

/-- The spread merge `{ ...current, ...patch, updatedAt: nowIso() }`. -/
def applyPatch (j : Job) (p : JobPatch) (now : Nat) : Job :=
  { j with
    status := p.status.getD j.status,
    provider := p.provider.getD j.provider,
    attempts := p.attempts.getD j.attempts,
    nextAttemptAt := p.nextAttemptAt.getD j.nextAttemptAt,
    lastAttemptAt := p.lastAttemptAt.getD j.lastAttemptAt,
    sentAt := p.sentAt.getD j.sentAt,
    failedAt := p.failedAt.getD j.failedAt,
    lastError := p.lastError.getD j.lastError,
    updatedAt := now }

/-- `CreateNotificationAuditLogParams`. -/
structure CreateAuditParams where
  jobId : Nat
  event : AuditEvent
  channel : Channel
  provider : Option String
  attempt : Option Nat
  message : String
  detail : Option JVal

/-- The eligibility filter of `listDue`. -/
def dueJob (j : Job) (now : Nat) : Bool :=
  if j.status ≠ .queued ∧ j.status ≠ .retrying then false
  else if now < j.nextAttemptAt then false
  else if j.maxAttempts ≤ j.attempts then false
  else true

/-- `InMemoryNotificationsRepository.listDue`. -/
def Store.listDue (S : Store) (now : Nat) (limit : Int) : List Job :=
  let takeMax : Nat := (max 1 limit).toNat
  ((S.notifications.filter (fun j => dueJob j now)).mergeSort
      (fun a b => decide (a.nextAttemptAt ≤ b.nextAttemptAt))).take takeMax

/-- `InMemoryNotificationsRepository.getById`. -/
def Store.getById (S : Store) (id : Nat) : Option Job :=
  S.notifications.find? (fun j => j.id == id)

/-- `InMemoryNotificationsRepository.create`. -/
def Store.createJob (S : Store) (p : CreateJobParams) (now : Nat) :
    Job × Store :=
  let j : Job :=
    { id := S.nextId, businessId := p.businessId, channel := p.channel,
      audience := p.audience, subject := p.subject, message := p.message,
      metadata := p.metadata, status := p.status, provider := none,
      attempts := 0, maxAttempts := p.maxAttempts,
      nextAttemptAt := p.nextAttemptAt, lastAttemptAt := none,
      sentAt := none, failedAt := none, lastError := none,
      createdAt := now, updatedAt := now }
  (j, { S with notifications := S.notifications ++ [j], nextId := S.nextId + 1 })

/-- `findIndex` + in-place assignment of `update`: replace the first job
with the given id by its image under `f`, returning the new record. -/
def replaceFirst (l : List Job) (id : Nat) (f : Job → Job) :
    Option Job × List Job :=
  match l with
  | [] => (none, [])
  | j :: rest =>
    if j.id = id then (some (f j), f j :: rest)
    else
      let r := replaceFirst rest id f
      (r.1, j :: r.2)

/-- `InMemoryNotificationsRepository.update`. -/
def Store.updateJob (S : Store) (id : Nat) (p : JobPatch) (now : Nat) :
    Option Job × Store :=
  let r := replaceFirst S.notifications id (fun j => applyPatch j p now)
  (r.1, { S with notifications := r.2 })

/-- `InMemoryNotificationsRepository.createAuditLog`. -/
def Store.createAuditLog (S : Store) (p : CreateAuditParams) (now : Nat) :
    AuditEntry × Store :=
  let e : AuditEntry :=
    { id := S.nextAuditId, jobId := p.jobId, event := p.event,
      channel := p.channel, provider := p.provider, attempt := p.attempt,
      message := p.message, detail := p.detail, createdAt := now }
  (e, { S with auditLogs := S.auditLogs ++ [e], nextAuditId := S.nextAuditId + 1 })

/-- `NotificationProviderResult`. -/
structure ProviderResult where
  accepted : Bool
  externalId : Option String
  detail : Option String

/-- `NotificationDispatchInput`. -/
structure DispatchInput where
  jobId : Nat
  businessId : String
  channel : Channel
  audience : String
  subject : Option String
  message : String
  metadata : Option JVal
  attempt : Nat

/-- `NotificationProvider`: a thrown provider error is the `.error` case
of `send`. -/
structure Provider where
  name : String
  channel : Channel
  send : DispatchInput → Except String ProviderResult

/-- `HttpError`. -/
structure HttpError where
  status : Nat
  message : String
deriving DecidableEq

/-- `NotificationsServiceOptions` (the log level is irrelevant to state and
omitted), together with the opaque `Date.parse` of the JS runtime.  The
`providers` record is total, as the `Record<NotificationChannel, _>` built
by `buildNotificationProviderRegistry` is: a channel with no real provider
is wired to `noopProvider`. -/
structure ServiceOptions where
  providers : Channel → Provider
  defaultMaxAttempts : Nat
  retryBaseMs : Nat
  retryMaxMs : Nat
  parseDate : String → Option Nat

/-- `QueueNotificationInput`. -/
structure QueueInput where
  businessId : String
  channel : String
  audience : String
  subject : Option String
  message : String
  metadata : Option JVal
  maxAttempts : Option ℚ

/-- The processJob outcome (`Extract<NotificationStatus, ...>`). -/
inductive Outcome where
  | sent
  | retrying
  | failed
deriving DecidableEq

/-- `ProcessQueueResult`. -/
structure ProcessResult where
  processed : Nat
  sent : Nat
  retried : Nat
  failed : Nat
  jobIds : List Nat
deriving DecidableEq

/-- `Math.trunc` on the rational representation of a JS number. -/
def jsTrunc (q : ℚ) : Int := if q < 0 then Int.ceil q else Int.floor q

/-- `NotificationsService.normalizeAudience`. -/
def normalizeAudience : Option JVal → Option String
  | some (.str s) =>
    let normalized := jsTrim s
    if 0 < normalized.length then some normalized else none
  | _ => none

/-- `NotificationsService.readScheduledFor`; `parseDate` stands for
`Date.parse` followed by the finiteness check and re-serialization. -/
def readScheduledFor (opts : ServiceOptions) (metadata : Option JVal) :
    Option Nat :=
  match mget metadata "scheduledFor" with
  | some (.str s) =>
    let normalized := jsTrim s
    if normalized = "" then none else opts.parseDate normalized
  | _ => none

/-- `NotificationFallbackTargets`. -/
structure FallbackTargets where
  emailAudience : Option String
  smsAudience : Option String
deriving DecidableEq

/-- `NotificationsService.readFallbackTargets`. -/
def readFallbackTargets (metadata : Option JVal) : FallbackTargets :=
  let fbFields : Option (List (String × JVal)) :=
    match mget metadata "fallback" with
    | some (.obj fields) => some fields
    | _ => none
  let fbGet : String → Option JVal := fun key =>
    match fbFields with
    | some fields => jfieldGet fields key
    | none => none
  { emailAudience :=
      normalizeAudience (fbGet "emailAudience") <|>
        normalizeAudience (mget metadata "fallbackEmailAudience"),
    smsAudience :=
      normalizeAudience (fbGet "smsAudience") <|>
        normalizeAudience (mget metadata "fallbackSmsAudience") }

/-- `NotificationsService.fallbackMetadata`: copy the job's metadata
object, strip the fallback keys, then tag the fallback provenance. -/
def fallbackMetadata (job : Job) (reason : String)
    (fallbackChannel : Channel) (now : Nat) : List (String × JVal) :=
  let source : List (String × JVal) :=
    match job.metadata with
    | some (.obj fields) => fields
    | _ => []
  let stripped :=
    jfieldErase (jfieldErase (jfieldErase source "fallback")
      "fallbackEmailAudience") "fallbackSmsAudience"
  jfieldSet (jfieldSet (jfieldSet (jfieldSet (jfieldSet (jfieldSet stripped
    "source" (.str "push-fallback"))
    "fallbackFromJobId" (.num (Int.ofNat job.id)))
    "fallbackFromChannel" (.str (channelName job.channel)))
    "fallbackToChannel" (.str (channelName fallbackChannel)))
    "fallbackReason" (.str reason))
    "fallbackQueuedAt" (.num (Int.ofNat now))

/-- `NotificationsService.computeRetryDelayMs`; natural subtraction is
exactly the source's `Math.max(0, attempt - 1)`. -/
def computeRetryDelayMs (opts : ServiceOptions) (attempt : Nat) : Nat :=
  let exp := attempt - 1
  let candidate := opts.retryBaseMs * 2 ^ exp
  min opts.retryMaxMs candidate

/-- The `scheduledFor` value recorded in the `queued` audit detail. -/
def jvalOfTimestamp : Option Nat → JVal
  | some t => .num (Int.ofNat t)
  | none => .null

/-- A nullable string rendered as a JS value. -/
def jvalOfOptStr : Option String → JVal
  | some s => .str s
  | none => .null

/-- The resolution of the `maxAttempts` input:
`input.maxAttempts && Number.isFinite(input.maxAttempts) ?
Math.trunc(input.maxAttempts) : this.options.defaultMaxAttempts`.
A supplied `0` is falsy and resolves to the default; rationals are always
finite (`NaN` is falsy and the infinities fail the finiteness test, so all
three take the default branch this expression gives `0`). -/
def resolveMaxAttempts (opts : ServiceOptions) (m : Option ℚ) : Int :=
  match m with
  | some q => if q ≠ 0 then jsTrunc q else (opts.defaultMaxAttempts : Int)
  | none => (opts.defaultMaxAttempts : Int)

/-- `NotificationsService.queueNotification`. -/
def queueNotification (opts : ServiceOptions) (now : Nat)
    (input : QueueInput) (S : Store) : Except HttpError Job × Store :=
  let businessId := jsTrim input.businessId
  let channelStr := jsToLower (jsTrim input.channel)
  let message := jsTrim input.message
  let audience := if jsTrim input.audience = "" then "all" else jsTrim input.audience
  let subject : Option String :=
    match input.subject with
    | some s => if jsTrim s = "" then none else some (jsTrim s)
    | none => none
  let metadata := input.metadata
  if businessId = "" ∨ message = "" then
    (.error ⟨400, "Missing businessId or message"⟩, S)
  else
    match parseChannel channelStr with
    | none => (.error ⟨400, "Invalid notification channel"⟩, S)
    | some channel =>
      let maxAttemptsVal : Int := resolveMaxAttempts opts input.maxAttempts
      if maxAttemptsVal < 1 ∨ 10 < maxAttemptsVal then
        (.error ⟨400, "maxAttempts must be between 1 and 10"⟩, S)
      else if isArr metadata then
        (.error ⟨400, "metadata must be an object"⟩, S)
      else
        let scheduledFor := readScheduledFor opts metadata
        let nextAttemptAt :=
          match scheduledFor with
          | some t => if now < t then t else now
          | none => now
        let created := S.createJob
          { businessId := businessId, channel := channel, audience := audience,
            subject := subject, message := message, metadata := metadata,
            status := .queued, maxAttempts := maxAttemptsVal.toNat,
            nextAttemptAt := nextAttemptAt } now
        let job := created.1
        let S2 := (created.2.createAuditLog
          { jobId := job.id, event := .queued, channel := job.channel,
            provider := none, attempt := some 0,
            message := "Notification queued",
            detail := some (.obj
              [("audience", .str job.audience),
               ("maxAttempts", .num (Int.ofNat job.maxAttempts)),
               ("scheduledFor", jvalOfTimestamp scheduledFor)]) } now).2
        (.ok job, S2)

/-- `NotificationsService.retryJob`. -/
def retryJob (now : Nat) (jobId : Nat) (S : Store) :
    Except HttpError Job × Store :=
  match S.getById jobId with
  | none => (.error ⟨404, "Notification job not found"⟩, S)
  | some existing =>
    if existing.status = .sent then
      (.error ⟨409, "Sent jobs cannot be retried"⟩, S)
    else if existing.maxAttempts ≤ existing.attempts then
      (.error ⟨409, "Retry budget exhausted for this job"⟩, S)
    else
      let upd := S.updateJob existing.id
        { status := some .retrying, nextAttemptAt := some now,
          failedAt := some none, lastError := some none } now
      match upd.1 with
      | none => (.error ⟨500, "Notification job update failed"⟩, upd.2)
      | some updated =>
        let S2 := (upd.2.createAuditLog
          { jobId := existing.id, event := .retry_requested,
            channel := existing.channel, provider := existing.provider,
            attempt := some existing.attempts,
            message := "Manual retry requested", detail := none } now).2
        (.ok updated, S2)

/-- The `QueueNotificationInput` built for one fallback candidate. -/
def fallbackInput (job : Job) (pushError : String) (now : Nat)
    (channel : Channel) (audience : String) : QueueInput :=
  { businessId := job.businessId,
    channel := channelName channel,
    audience := audience,
    subject :=
      match job.subject with
      | some s => if channel = .email ∧ s ≠ "" then some s else none
      | none => none,
    message := job.message,
    metadata := some (.obj (fallbackMetadata job pushError channel now)),
    maxAttempts := some ((job.maxAttempts : ℚ)) }

/-- The candidate loop of `queuePushFallbackJobs`. -/
def enqueueFallbackCandidates (opts : ServiceOptions) (now : Nat) (job : Job)
    (pushError : String) :
    List (Channel × Option String) → Store →
      Except HttpError (List Job × List Channel) × Store
  | [], S => (.ok ([], []), S)
  | (ch, aud) :: rest, S =>
    match aud with
    | none =>
      match enqueueFallbackCandidates opts now job pushError rest S with
      | (.ok (queuedJobs, skipped), S1) => (.ok (queuedJobs, ch :: skipped), S1)
      | (.error e, S1) => (.error e, S1)
    | some audience =>
      match queueNotification opts now (fallbackInput job pushError now ch audience) S with
      | (.error e, S1) => (.error e, S1)
      | (.ok q, S1) =>
        match enqueueFallbackCandidates opts now job pushError rest S1 with
        | (.ok (queuedJobs, skipped), S2) => (.ok (q :: queuedJobs, skipped), S2)
        | (.error e, S2) => (.error e, S2)

/-- The `fallback_queued` audit parameters built in
`queuePushFallbackJobs` when at least one fallback job was created. -/
def fallbackAuditParams (job : Job) (provider : Provider) (attempt : Nat)
    (pushError : String) (queuedJobs : List Job) : CreateAuditParams :=
  { jobId := job.id, event := .fallback_queued, channel := job.channel,
    provider := some provider.name, attempt := some attempt,
    message := "Push delivery failed; queued fallback notifications",
    detail := some (.obj
      [("pushProvider", .str provider.name),
       ("pushAttempt", .num (Int.ofNat attempt)),
       ("pushError", .str pushError),
       ("queuedFallbackJobIds",
         .arr (queuedJobs.map (fun q => .num (Int.ofNat q.id)))),
       ("queuedFallbackChannels",
         .arr (queuedJobs.map (fun q => .str (channelName q.channel))))]) }

/-- `NotificationsService.queuePushFallbackJobs`. -/
def queuePushFallbackJobs (opts : ServiceOptions) (now : Nat) (job : Job)
    (provider : Provider) (attempt : Nat) (pushError : String) (S : Store) :
    Except HttpError (List Job × List Channel) × Store :=
  if job.channel ≠ .push then (.ok ([], []), S)
  else
    let targets := readFallbackTargets job.metadata
    match enqueueFallbackCandidates opts now job pushError
        [(.email, targets.emailAudience), (.sms, targets.smsAudience)] S with
    | (.error e, S1) => (.error e, S1)
    | (.ok (queuedJobs, skipped), S1) =>
      if queuedJobs.length ≠ 0 then
        let S2 := (S1.createAuditLog
          (fallbackAuditParams job provider attempt pushError queuedJobs) now).2
        (.ok (queuedJobs, skipped), S2)
      else (.ok (queuedJobs, skipped), S1)

/-- `NotificationsService.markSent`. -/
def markSent (now : Nat) (jobId : Nat) (channel : Channel)
    (providerName : String) (attempt : Nat) (providerResult : ProviderResult)
    (S : Store) : Except HttpError Job × Store :=
  let upd := S.updateJob jobId
    { status := some .sent, provider := some (some providerName),
      sentAt := some (some now), failedAt := some none,
      lastError := some none } now
  match upd.1 with
  | none => (.error ⟨500, "Notification job update failed"⟩, upd.2)
  | some updated =>
    let S2 := (upd.2.createAuditLog
      { jobId := jobId, event := .attempt_succeeded, channel := channel,
        provider := some providerName, attempt := some attempt,
        message := "Notification delivered",
        detail := some (.obj
          [("accepted", .bool providerResult.accepted),
           ("externalId", jvalOfOptStr providerResult.externalId),
           ("detail", jvalOfOptStr providerResult.detail)]) } now).2
    (.ok updated, S2)

/-- The `lastError` string written when fallback jobs were queued. -/
def fallbackLastError (queuedJobs : List Job) : String :=
  "Push delivery failed. Fallback queued: " ++
    String.intercalate ", " (queuedJobs.map (fun q => channelUpper q.channel))

/-- The `attempt_failed` audit parameters written at the top of
`markAttemptFailure`. -/
def attemptFailedParams (job : Job) (provider : Provider) (attempt : Nat)
    (message : String) : CreateAuditParams :=
  { jobId := job.id, event := .attempt_failed, channel := job.channel,
    provider := some provider.name, attempt := some attempt,
    message := "Dispatch attempt failed",
    detail := some (.obj [("error", .str message)]) }

/-- `NotificationsService.markAttemptFailure`. -/
def markAttemptFailure (opts : ServiceOptions) (now : Nat) (job : Job)
    (provider : Provider) (attempt : Nat) (message : String) (S : Store) :
    Except HttpError (Outcome × Job) × Store :=
  let S1 := (S.createAuditLog (attemptFailedParams job provider attempt message) now).2
  match queuePushFallbackJobs opts now job provider attempt message S1 with
  | (.error e, S2) => (.error e, S2)
  | (.ok (queuedJobs, _), S2) =>
    if queuedJobs.length ≠ 0 then
      let upd := S2.updateJob job.id
        { status := some .failed, provider := some (some provider.name),
          failedAt := some (some now),
          lastError := some (some (fallbackLastError queuedJobs)) } now
      match upd.1 with
      | none => (.error ⟨500, "Notification job update failed"⟩, upd.2)
      | some failedRecord => (.ok (.failed, failedRecord), upd.2)
    else if job.maxAttempts ≤ attempt then
      let upd := S2.updateJob job.id
        { status := some .failed, provider := some (some provider.name),
          failedAt := some (some now), lastError := some (some message) } now
      match upd.1 with
      | none => (.error ⟨500, "Notification job update failed"⟩, upd.2)
      | some failedRecord =>
        let S3 := (upd.2.createAuditLog
          { jobId := job.id, event := .failed_final, channel := job.channel,
            provider := some provider.name, attempt := some attempt,
            message := "Retry budget exhausted",
            detail := some (.obj
              [("maxAttempts", .num (Int.ofNat job.maxAttempts)),
               ("error", .str message)]) } now).2
        (.ok (.failed, failedRecord), S3)
    else
      let delayMs := computeRetryDelayMs opts attempt
      let nextAttemptAt := now + delayMs
      let upd := S2.updateJob job.id
        { status := some .retrying, provider := some (some provider.name),
          nextAttemptAt := some nextAttemptAt, failedAt := some none,
          lastError := some (some message) } now
      match upd.1 with
      | none => (.error ⟨500, "Notification job update failed"⟩, upd.2)
      | some retryRecord =>
        let S3 := (upd.2.createAuditLog
          { jobId := job.id, event := .retry_scheduled, channel := job.channel,
            provider := some provider.name, attempt := some attempt,
            message := "Retry scheduled",
            detail := some (.obj
              [("delayMs", .num (Int.ofNat delayMs)),
               ("nextAttemptAt", .num (Int.ofNat nextAttemptAt))]) } now).2
        (.ok (.retrying, retryRecord), S3)

/-- The dispatch input object literal passed to `provider.send`. -/
def buildDispatchInput (job : Job) (attempt : Nat) : DispatchInput :=
  { jobId := job.id, businessId := job.businessId, channel := job.channel,
    audience := job.audience, subject := job.subject, message := job.message,
    metadata := job.metadata, attempt := attempt }

/-- `NotificationsService.processJob`.  The try block of the source wraps
`provider.send` and `markSent`, so a rejected result, a thrown provider
error, and a (practically impossible) `markSent` failure all flow into
`markAttemptFailure`. -/
def processJob (opts : ServiceOptions) (now : Nat) (jobId : Nat) (S : Store) :
    Except HttpError (Outcome × Job) × Store :=
  match S.getById jobId with
  | none => (.error ⟨404, "Notification job not found"⟩, S)
  | some job =>
    let provider := opts.providers job.channel
    let attempt := job.attempts + 1
    let upd := S.updateJob job.id
      { status := some .processing, provider := some (some provider.name),
        attempts := some attempt, lastAttemptAt := some (some now),
        lastError := some none } now
    match upd.1 with
    | none => (.error ⟨500, "Notification job update failed"⟩, upd.2)
    | some _ =>
      let S2 := (upd.2.createAuditLog
        { jobId := job.id, event := .attempt_started, channel := job.channel,
          provider := some provider.name, attempt := some attempt,
          message := "Dispatch attempt started",
          detail := some (.obj [("audience", .str job.audience)]) } now).2
      match provider.send (buildDispatchInput job attempt) with
      | .ok providerResult =>
        if providerResult.accepted then
          match markSent now job.id job.channel provider.name attempt providerResult S2 with
          | (.ok sentRecord, S3) => (.ok (.sent, sentRecord), S3)
          | (.error e, S3) =>
            markAttemptFailure opts now job provider attempt e.message S3
        else
          markAttemptFailure opts now job provider attempt
            (providerResult.detail.getD
              (provider.name ++ " rejected notification dispatch")) S2
      | .error msg => markAttemptFailure opts now job provider attempt msg S2

/-- The sequential batch loop of `processDueJobs`. -/
def runBatch (opts : ServiceOptions) (now : Nat) :
    List Job → Store → Except HttpError (Nat × Nat × Nat × List Nat) × Store
  | [], S => (.ok (0, 0, 0, []), S)
  | j :: rest, S =>
    match processJob opts now j.id S with
    | (.error e, S1) => (.error e, S1)
    | (.ok (outcome, jobRecord), S1) =>
      match runBatch opts now rest S1 with
      | (.error e, S2) => (.error e, S2)
      | (.ok (s, r, f, ids), S2) =>
        (.ok
          ((if outcome = .sent then s + 1 else s),
           (if outcome = .retrying then r + 1 else r),
           (if outcome = .failed then f + 1 else f),
           jobRecord.id :: ids), S2)

/-- `NotificationsService.processDueJobs`. -/
def processDueJobs (opts : ServiceOptions) (now : Nat) (limit : Int)
    (S : Store) : Except HttpError ProcessResult × Store :=
  let dueJobs := S.listDue now (max 1 limit)
  match runBatch opts now dueJobs S with
  | (.error e, S1) => (.error e, S1)
  | (.ok (s, r, f, ids), S1) =>
    (.ok { processed := dueJobs.length, sent := s, retried := r,
           failed := f, jobIds := ids }, S1)

/-- `NoopNotificationProvider`: the provider wired for a channel that has
no real provider configured; its `send` always throws a 503. -/
def noopProvider (channel : Channel) : Provider :=
  { name := channelName channel ++ "-noop",
    channel := channel,
    send := fun _ =>
      .error (channelUpper channel ++ " provider is not configured yet") }

/-- The empty `MemoryStore`. -/
def emptyStore : Store :=
  { notifications := [], auditLogs := [], nextId := 0, nextAuditId := 0 }

/-! ### Basic lemmas about the JS string trim model -/

theorem dropWhile_eq_self_of_head_false {α : Type} (p : α → Bool) (l : List α)
    (h : ∀ x, l.head? = some x → p x = false) : l.dropWhile p = l := by
  cases l with
  | nil => rfl
  | cons a t =>
    have ha : p a = false := h a rfl
    simp [List.dropWhile_cons, ha]

theorem dropWhile_dropWhile {α : Type} (p : α → Bool) (l : List α) :
    (l.dropWhile p).dropWhile p = l.dropWhile p := by
  apply dropWhile_eq_self_of_head_false
  intro x hx
  have hne : l.dropWhile p ≠ [] := by
    intro hnil
    rw [hnil] at hx
    exact Option.noConfusion hx
  have hx' : (l.dropWhile p).head hne = x := by
    rw [List.head?_eq_head hne] at hx
    exact Option.some.inj hx
  have := List.head_dropWhile_not p l hne
  rw [hx'] at this
  exact this

theorem trimChars_idem (l : List Char) : trimChars (trimChars l) = trimChars l := by
  unfold trimChars
  set p := Char.isWhitespace with hp
  set a := l.dropWhile p with ha
  set b := a.reverse.dropWhile p with hb
  have hsuffix : b <:+ a.reverse := by
    rw [hb]; exact List.dropWhile_suffix p
  obtain ⟨t, ht⟩ := hsuffix
  have hprefixa : a = b.reverse ++ t.reverse := by
    have : a.reverse.reverse = (t ++ b).reverse := by rw [ht]
    simpa [List.reverse_append] using this
  have hstep1 : b.reverse.dropWhile p = b.reverse := by
    apply dropWhile_eq_self_of_head_false
    intro x hx
    have hbne : b.reverse ≠ [] := by
      intro hnil; rw [hnil] at hx; exact Option.noConfusion hx
    have hane : a ≠ [] := by
      rw [hprefixa]
      intro habs
      exact hbne (List.append_eq_nil.mp habs).1
    have hheadeq : a.head? = b.reverse.head? := by
      rw [hprefixa]
      exact List.head?_append_of_ne_nil _ hbne
    have hax : a.head? = some x := by rw [hheadeq]; exact hx
    have hx' : a.head hane = x := by
      rw [List.head?_eq_head hane] at hax
      exact Option.some.inj hax
    have h2 : p (a.head hane) = false := List.head_dropWhile_not p l hane
    rw [hx'] at h2
    exact h2
  rw [hstep1, List.reverse_reverse, hb, dropWhile_dropWhile]

theorem jsTrim_idem (s : String) : jsTrim (jsTrim s) = jsTrim s := by
  unfold jsTrim
  exact congrArg String.mk (trimChars_idem s.data)

/-! ### Lemmas about the repository primitives -/

theorem applyPatch_id (j : Job) (p : JobPatch) (now : Nat) :
    (applyPatch j p now).id = j.id := rfl

theorem applyPatch_channel (j : Job) (p : JobPatch) (now : Nat) :
    (applyPatch j p now).channel = j.channel := rfl

theorem replaceFirst_fst (l : List Job) (id : Nat) (f : Job → Job) :
    (replaceFirst l id f).1 = (l.find? (fun j => j.id == id)).map f := by
  induction l with
  | nil => rfl
  | cons j rest ih =>
    by_cases h : j.id = id
    · simp [replaceFirst, List.find?_cons, h]
    · simp [replaceFirst, List.find?_cons, h, ih]

theorem replaceFirst_snd_of_none (l : List Job) (id : Nat) (f : Job → Job)
    (h : ∀ x ∈ l, x.id ≠ id) : (replaceFirst l id f).2 = l := by
  induction l with
  | nil => rfl
  | cons j rest ih =>
    have hj : j.id ≠ id := h j (List.mem_cons_self j rest)
    have hrest : ∀ x ∈ rest, x.id ≠ id :=
      fun x hx => h x (List.mem_cons_of_mem j hx)
    simp [replaceFirst, hj, ih hrest]

theorem mem_replaceFirst_snd {x : Job} (l : List Job) (id : Nat) (f : Job → Job)
    (hx : x ∈ (replaceFirst l id f).2) :
    x ∈ l ∨ ∃ j, j ∈ l ∧ j.id = id ∧ x = f j := by
  induction l with
  | nil => simp [replaceFirst] at hx
  | cons j rest ih =>
    by_cases hj : j.id = id
    · simp only [replaceFirst, if_pos hj, List.mem_cons] at hx
      rcases hx with hx | hx
      · exact Or.inr ⟨j, List.mem_cons_self j rest, hj, hx⟩
      · exact Or.inl (List.mem_cons_of_mem j hx)
    · simp only [replaceFirst, if_neg hj, List.mem_cons] at hx
      rcases hx with hx | hx
      · exact Or.inl (hx ▸ List.mem_cons_self j rest)
      · rcases ih hx with h | ⟨j', hj', hjid, hxeq⟩
        · exact Or.inl (List.mem_cons_of_mem j h)
        · exact Or.inr ⟨j', List.mem_cons_of_mem j hj', hjid, hxeq⟩

theorem replaceFirst_snd_map_id (l : List Job) (id : Nat) (f : Job → Job)
    (hf : ∀ j, (f j).id = j.id) :
    (replaceFirst l id f).2.map Job.id = l.map Job.id := by
  induction l with
  | nil => rfl
  | cons j rest ih =>
    by_cases hj : j.id = id
    · simp [replaceFirst, hj, hf]
    · simp [replaceFirst, hj, ih]

theorem find?_replaceFirst_snd_ne (l : List Job) (id i : Nat) (f : Job → Job)
    (hf : ∀ j, (f j).id = j.id) (hne : i ≠ id) :
    (replaceFirst l id f).2.find? (fun j => j.id == i) =
      l.find? (fun j => j.id == i) := by
  induction l with
  | nil => rfl
  | cons j rest ih =>
    by_cases hj : j.id = id
    · have hji : ¬ ((fun x : Job => x.id == i) j) = true := by
        intro hcontra
        have hidom : j.id = i := by simpa using hcontra
        rw [hj] at hidom
        exact hne hidom.symm
      have hfi : ¬ ((fun x : Job => x.id == i) (f j)) = true := by
        intro hcontra
        have hidom : (f j).id = i := by simpa using hcontra
        rw [hf j, hj] at hidom
        exact hne hidom.symm
      have hsnd : (replaceFirst (j :: rest) id f).2 = f j :: rest := by
        simp [replaceFirst, hj]
      rw [hsnd, List.find?_cons_of_neg rest hfi, List.find?_cons_of_neg rest hji]
    · have hsnd : (replaceFirst (j :: rest) id f).2 =
          j :: (replaceFirst rest id f).2 := by
        simp [replaceFirst, hj]
      by_cases hji : j.id = i
      · have hb : ((fun x : Job => x.id == i) j) = true := by simp [hji]
        rw [hsnd, List.find?_cons_of_pos (replaceFirst rest id f).2 hb,
          List.find?_cons_of_pos rest hb]
      · have hb : ¬ ((fun x : Job => x.id == i) j) = true := by
          intro hcontra
          exact hji (by simpa using hcontra)
        rw [hsnd, List.find?_cons_of_neg (replaceFirst rest id f).2 hb,
          List.find?_cons_of_neg rest hb, ih]

theorem find?_replaceFirst_snd_self (l : List Job) (id : Nat) (f : Job → Job)
    (hf : ∀ j, (f j).id = j.id) :
    (replaceFirst l id f).2.find? (fun j => j.id == id) =
      (l.find? (fun j => j.id == id)).map f := by
  induction l with
  | nil => rfl
  | cons j rest ih =>
    by_cases hj : j.id = id
    · have hfj : (f j).id = id := by rw [hf j, hj]
      simp [replaceFirst, hj, List.find?_cons, hfj]
    · simp [replaceFirst, hj, List.find?_cons, ih]

theorem replaceFirst_snd_length (l : List Job) (id : Nat) (f : Job → Job) :
    (replaceFirst l id f).2.length = l.length := by
  induction l with
  | nil => rfl
  | cons j rest ih =>
    by_cases hj : j.id = id
    · simp [replaceFirst, hj]
    · simp [replaceFirst, hj, ih]

/-! ### Store-level corollaries -/

theorem updateJob_fst (S : Store) (id : Nat) (p : JobPatch) (now : Nat) :
    (S.updateJob id p now).1 =
      (S.getById id).map (fun j => applyPatch j p now) :=
  replaceFirst_fst S.notifications id (fun j => applyPatch j p now)

theorem updateJob_auditLogs (S : Store) (id : Nat) (p : JobPatch) (now : Nat) :
    (S.updateJob id p now).2.auditLogs = S.auditLogs := rfl

theorem updateJob_nextId (S : Store) (id : Nat) (p : JobPatch) (now : Nat) :
    (S.updateJob id p now).2.nextId = S.nextId := rfl

theorem updateJob_nextAuditId (S : Store) (id : Nat) (p : JobPatch) (now : Nat) :
    (S.updateJob id p now).2.nextAuditId = S.nextAuditId := rfl

theorem getById_updateJob_ne (S : Store) (id i : Nat) (p : JobPatch)
    (now : Nat) (hne : i ≠ id) :
    (S.updateJob id p now).2.getById i = S.getById i :=
  find?_replaceFirst_snd_ne S.notifications id i _ (fun _ => rfl) hne

theorem getById_updateJob_self (S : Store) (id : Nat) (p : JobPatch) (now : Nat) :
    (S.updateJob id p now).2.getById id =
      (S.getById id).map (fun j => applyPatch j p now) :=
  find?_replaceFirst_snd_self S.notifications id _ (fun _ => rfl)

theorem updateJob_map_id (S : Store) (id : Nat) (p : JobPatch) (now : Nat) :
    (S.updateJob id p now).2.notifications.map Job.id =
      S.notifications.map Job.id :=
  replaceFirst_snd_map_id S.notifications id _ (fun _ => rfl)

theorem createJob_fst_id (S : Store) (p : CreateJobParams) (now : Nat) :
    (S.createJob p now).1.id = S.nextId := rfl

theorem createJob_notifications (S : Store) (p : CreateJobParams) (now : Nat) :
    (S.createJob p now).2.notifications =
      S.notifications ++ [(S.createJob p now).1] := rfl

theorem createJob_nextId (S : Store) (p : CreateJobParams) (now : Nat) :
    (S.createJob p now).2.nextId = S.nextId + 1 := rfl

theorem createJob_auditLogs (S : Store) (p : CreateJobParams) (now : Nat) :
    (S.createJob p now).2.auditLogs = S.auditLogs := rfl

theorem getById_createJob_ne (S : Store) (p : CreateJobParams) (now : Nat)
    (i : Nat) (hne : i ≠ S.nextId) :
    (S.createJob p now).2.getById i = S.getById i := by
  unfold Store.getById
  rw [createJob_notifications, List.find?_append]
  have hnone : (([(S.createJob p now).1]).find? (fun j => j.id == i)) = none := by
    have hb : ((S.createJob p now).1.id == i) = false := by
      simp only [createJob_fst_id, beq_eq_false_iff_ne]
      exact fun h => hne h.symm
    simp [List.find?, hb]
  rw [hnone]
  cases h : S.notifications.find? (fun j => j.id == i) <;> simp

theorem createAuditLog_notifications (S : Store) (p : CreateAuditParams)
    (now : Nat) :
    (S.createAuditLog p now).2.notifications = S.notifications := rfl

theorem createAuditLog_nextId (S : Store) (p : CreateAuditParams) (now : Nat) :
    (S.createAuditLog p now).2.nextId = S.nextId := rfl

theorem createAuditLog_auditLogs (S : Store) (p : CreateAuditParams) (now : Nat) :
    (S.createAuditLog p now).2.auditLogs =
      S.auditLogs ++ [(S.createAuditLog p now).1] := rfl

theorem getById_createAuditLog (S : Store) (p : CreateAuditParams) (now : Nat)
    (i : Nat) : (S.createAuditLog p now).2.getById i = S.getById i := rfl

/-! ### Claim C2: listDue -/

theorem dueJob_iff (j : Job) (now : Nat) :
    dueJob j now = true ↔
      ((j.status = .queued ∨ j.status = .retrying) ∧
        j.nextAttemptAt ≤ now ∧ j.attempts < j.maxAttempts) := by
  unfold dueJob
  split_ifs with h1 h2 h3
  · constructor
    · intro h
      exact absurd h (by simp)
    · rintro ⟨hs, -, -⟩
      exfalso
      rcases hs with h | h
      · exact h1.1 h
      · exact h1.2 h
  · constructor
    · intro h
      exact absurd h (by simp)
    · rintro ⟨-, hle, -⟩
      omega
  · constructor
    · intro h
      exact absurd h (by simp)
    · rintro ⟨-, -, hlt⟩
      omega
  · constructor
    · intro _
      push_neg at h1
      refine ⟨?_, by omega, by omega⟩
      by_cases hq : j.status = .queued
      · exact Or.inl hq
      · exact Or.inr (h1 hq)
    · intro _
      rfl

/-- C2: for every store state, `now` and `limit`, `listDue now limit`
returns only jobs of the store with status `queued` or `retrying` (never
`sent`, `failed` or `processing`), with `nextAttemptAt ≤ now` and
`attempts < maxAttempts`; the result is ordered by `nextAttemptAt`
ascending and truncated to `limit` clamped to at least 1; and whenever the
clamp does not truncate, every eligible job of the store is returned. -/
theorem C2_listDue_spec (S : Store) (now : Nat) (limit : Int) :
    (∀ j ∈ S.listDue now limit,
        j ∈ S.notifications ∧
        (j.status = .queued ∨ j.status = .retrying) ∧
        j.status ≠ .sent ∧ j.status ≠ .failed ∧ j.status ≠ .processing ∧
        j.nextAttemptAt ≤ now ∧ j.attempts < j.maxAttempts) ∧
    (S.listDue now limit).Pairwise (fun a b => a.nextAttemptAt ≤ b.nextAttemptAt) ∧
    (S.listDue now limit).length ≤ (max 1 limit).toNat ∧
    1 ≤ (max 1 limit).toNat ∧
    ((S.notifications.filter (fun j => dueJob j now)).length ≤ (max 1 limit).toNat →
      ∀ j ∈ S.notifications, dueJob j now = true → j ∈ S.listDue now limit) := by
  refine ⟨?_, ?_, ?_, ?_, ?_⟩
  · intro j hj
    have hj' : j ∈ (S.notifications.filter (fun j => dueJob j now)).mergeSort
        (fun a b => decide (a.nextAttemptAt ≤ b.nextAttemptAt)) :=
      List.take_subset _ _ hj
    rw [List.mem_mergeSort] at hj'
    rw [List.mem_filter] at hj'
    obtain ⟨hmem, hdue⟩ := hj'
    have hprops := (dueJob_iff j now).mp hdue
    refine ⟨hmem, hprops.1, ?_, ?_, ?_, hprops.2.1, hprops.2.2⟩
    · rcases hprops.1 with h | h <;> simp [h]
    · rcases hprops.1 with h | h <;> simp [h]
    · rcases hprops.1 with h | h <;> simp [h]
  · have hsorted : ((S.notifications.filter (fun j => dueJob j now)).mergeSort
        (fun a b => decide (a.nextAttemptAt ≤ b.nextAttemptAt))).Pairwise
        (fun a b => decide (a.nextAttemptAt ≤ b.nextAttemptAt) = true) := by
      apply List.sorted_mergeSort
      · intro a b c hab hbc
        simp only [decide_eq_true_eq] at hab hbc ⊢
        omega
      · intro a b
        simp only [Bool.or_eq_true, decide_eq_true_eq]
        omega
    have hsub : (((S.notifications.filter (fun j => dueJob j now)).mergeSort
        (fun a b => decide (a.nextAttemptAt ≤ b.nextAttemptAt))).take
          ((max 1 limit).toNat)).Sublist
        ((S.notifications.filter (fun j => dueJob j now)).mergeSort
          (fun a b => decide (a.nextAttemptAt ≤ b.nextAttemptAt))) :=
      List.take_sublist _ _
    have htake := hsorted.sublist hsub
    exact htake.imp (fun h => by simpa using h)
  · exact List.length_take_le _ _
  · omega
  · intro hlen j hmem hdue
    have hlen' : ((S.notifications.filter (fun j => dueJob j now)).mergeSort
        (fun a b => decide (a.nextAttemptAt ≤ b.nextAttemptAt))).length ≤
        (max 1 limit).toNat := by
      rw [List.length_mergeSort]
      exact hlen
    show j ∈ ((S.notifications.filter (fun j => dueJob j now)).mergeSort
        (fun a b => decide (a.nextAttemptAt ≤ b.nextAttemptAt))).take
          ((max 1 limit).toNat)
    rw [List.take_of_length_le hlen', List.mem_mergeSort, List.mem_filter]
    exact ⟨hmem, hdue⟩

/-! ### Claim C4: retry backoff -/

theorem queuePushFallbackJobs_no_targets (opts : ServiceOptions) (now : Nat)
    (job : Job) (provider : Provider) (attempt : Nat) (msg : String) (S : Store)
    (h : job.channel ≠ .push ∨
      readFallbackTargets job.metadata = ⟨none, none⟩) :
    queuePushFallbackJobs opts now job provider attempt msg S =
      (.ok ([], if job.channel = .push then [Channel.email, Channel.sms] else []), S) := by
  rcases h with h | h
  · simp [queuePushFallbackJobs, h]
  · by_cases hch : job.channel = .push
    · simp [queuePushFallbackJobs, hch, h, enqueueFallbackCandidates]
    · simp [queuePushFallbackJobs, hch]

/-- C4: the retry delay equals `min(retryMaxMs, retryBaseMs * 2^(attempt-1))`,
is monotonically non-decreasing in the attempt number and never exceeds
`retryMaxMs`; and a failed attempt with budget remaining (and no fallback
queued) transitions the job to `status=retrying` with
`nextAttemptAt = now + delay`, `failedAt = null`, `lastError` the error
message, and appends a `retry_scheduled` audit entry carrying `delayMs`
and `nextAttemptAt`. -/
theorem C4_retry_backoff (opts : ServiceOptions)
    (hbase : 100 ≤ opts.retryBaseMs) (hmaxcfg : opts.retryBaseMs ≤ opts.retryMaxMs) :
    (∀ attempt, 1 ≤ attempt →
      computeRetryDelayMs opts attempt =
        min opts.retryMaxMs (opts.retryBaseMs * 2 ^ (attempt - 1))) ∧
    (∀ a b, 1 ≤ a → a ≤ b →
      computeRetryDelayMs opts a ≤ computeRetryDelayMs opts b) ∧
    (∀ attempt, computeRetryDelayMs opts attempt ≤ opts.retryMaxMs) ∧
    (∀ now job provider attempt message S cur,
      (job.channel ≠ .push ∨ readFallbackTargets job.metadata = ⟨none, none⟩) →
      attempt < job.maxAttempts →
      S.getById job.id = some cur →
      ∃ r S' af rs,
        markAttemptFailure opts now job provider attempt message S =
          (.ok (.retrying, r), S') ∧
        r.status = .retrying ∧
        r.nextAttemptAt = now + computeRetryDelayMs opts attempt ∧
        r.failedAt = none ∧
        r.lastError = some message ∧
        S'.auditLogs = S.auditLogs ++ [af, rs] ∧
        af.event = .attempt_failed ∧
        rs.event = .retry_scheduled ∧
        rs.jobId = job.id ∧
        rs.attempt = some attempt ∧
        rs.detail = some (.obj
          [("delayMs", .num (Int.ofNat (computeRetryDelayMs opts attempt))),
           ("nextAttemptAt",
             .num (Int.ofNat (now + computeRetryDelayMs opts attempt)))])) := by
  refine ⟨?_, ?_, ?_, ?_⟩
  · intro attempt _
    rfl
  · intro a b _ hab
    unfold computeRetryDelayMs
    have hpow : opts.retryBaseMs * 2 ^ (a - 1) ≤ opts.retryBaseMs * 2 ^ (b - 1) := by
      apply Nat.mul_le_mul_left
      exact Nat.pow_le_pow_right (by omega) (by omega)
    exact min_le_min (le_refl _) hpow
  · intro attempt
    exact min_le_left _ _
  · intro now job provider attempt message S cur hnofb hbudget hcur
    set S1 := (S.createAuditLog (attemptFailedParams job provider attempt message) now).2 with hS1
    have hqpf := queuePushFallbackJobs_no_targets opts now job provider attempt
      message S1 hnofb
    have hcur1 : S1.getById job.id = some cur := by
      rw [hS1, getById_createAuditLog]
      exact hcur
    have hupd : (S1.updateJob job.id
        { status := some .retrying, provider := some (some provider.name),
          nextAttemptAt := some (now + computeRetryDelayMs opts attempt),
          failedAt := some none,
          lastError := some (some message) } now).1 =
        some (applyPatch cur
          { status := some .retrying, provider := some (some provider.name),
            nextAttemptAt := some (now + computeRetryDelayMs opts attempt),
            failedAt := some none,
            lastError := some (some message) } now) := by
      rw [updateJob_fst, hcur1]
      rfl
    refine ⟨applyPatch cur
        { status := some .retrying, provider := some (some provider.name),
          nextAttemptAt := some (now + computeRetryDelayMs opts attempt),
          failedAt := some none,
          lastError := some (some message) } now,
      ((S1.updateJob job.id
        { status := some .retrying, provider := some (some provider.name),
          nextAttemptAt := some (now + computeRetryDelayMs opts attempt),
          failedAt := some none,
          lastError := some (some message) } now).2.createAuditLog
        { jobId := job.id, event := .retry_scheduled, channel := job.channel,
          provider := some provider.name, attempt := some attempt,
          message := "Retry scheduled",
          detail := some (.obj
            [("delayMs", .num (Int.ofNat (computeRetryDelayMs opts attempt))),
             ("nextAttemptAt",
               .num (Int.ofNat (now + computeRetryDelayMs opts attempt)))]) } now).2,
      (S.createAuditLog (attemptFailedParams job provider attempt message) now).1,
      ((S1.updateJob job.id
        { status := some .retrying, provider := some (some provider.name),
          nextAttemptAt := some (now + computeRetryDelayMs opts attempt),
          failedAt := some none,
          lastError := some (some message) } now).2.createAuditLog
        { jobId := job.id, event := .retry_scheduled, channel := job.channel,
          provider := some provider.name, attempt := some attempt,
          message := "Retry scheduled",
          detail := some (.obj
            [("delayMs", .num (Int.ofNat (computeRetryDelayMs opts attempt))),
             ("nextAttemptAt",
               .num (Int.ofNat (now + computeRetryDelayMs opts attempt)))]) } now).1,
      ?_, rfl, rfl, rfl, rfl, ?_, rfl, rfl, rfl, rfl, rfl⟩
    · show markAttemptFailure opts now job provider attempt message S = _
      simp only [markAttemptFailure]
      rw [← hS1, hqpf]
      simp only [List.length_nil, ne_eq, not_true_eq_false, if_false]
      rw [if_neg (by omega : ¬ job.maxAttempts ≤ attempt)]
      rw [hupd]
    · rw [createAuditLog_auditLogs, updateJob_auditLogs, hS1,
        createAuditLog_auditLogs]
      simp

/-! ### Claim C6: the fallback cascade is capped at one level -/

theorem jfieldGet_map_set_ne (fs : List (String × JVal)) (k k' : String)
    (v : JVal) (h : k' ≠ k) :
    jfieldGet (fs.map (fun p => if p.1 = k then (k, v) else p)) k' =
      jfieldGet fs k' := by
  induction fs with
  | nil => rfl
  | cons p rest ih =>
    rw [List.map_cons]
    by_cases hp : p.1 = k
    · rw [if_pos hp]
      have hkk : ¬ (k = k') := fun hc => h hc.symm
      have hpk : ¬ (p.1 = k') := by rw [hp]; exact hkk
      simp only [jfieldGet, if_neg hkk, if_neg hpk]
      exact ih
    · rw [if_neg hp]
      by_cases hpk : p.1 = k'
      · simp only [jfieldGet, if_pos hpk]
      · simp only [jfieldGet, if_neg hpk]
        exact ih

theorem jfieldGet_append (xs ys : List (String × JVal)) (key : String) :
    jfieldGet (xs ++ ys) key = (jfieldGet xs key).or (jfieldGet ys key) := by
  induction xs with
  | nil => rfl
  | cons p rest ih =>
    by_cases hp : p.1 = key
    · simp [jfieldGet, hp]
    · simp [jfieldGet, hp, ih]

theorem jfieldGet_set_ne (fs : List (String × JVal)) (k k' : String) (v : JVal)
    (h : k' ≠ k) :
    jfieldGet (jfieldSet fs k v) k' = jfieldGet fs k' := by
  unfold jfieldSet
  split
  · exact jfieldGet_map_set_ne fs k k' v h
  · rw [jfieldGet_append]
    have hone : jfieldGet [(k, v)] k' = none := by
      have hne : ¬ (k = k') := fun hc => h hc.symm
      simp [jfieldGet, hne]
    rw [hone]
    cases jfieldGet fs k' <;> rfl

theorem jfieldErase_cons_pos (p : String × JVal) (rest : List (String × JVal))
    (k : String) (hp : p.1 = k) :
    jfieldErase (p :: rest) k = jfieldErase rest k := by
  simp [jfieldErase, List.filter_cons, hp]

theorem jfieldErase_cons_neg (p : String × JVal) (rest : List (String × JVal))
    (k : String) (hp : ¬ p.1 = k) :
    jfieldErase (p :: rest) k = p :: jfieldErase rest k := by
  simp [jfieldErase, List.filter_cons, hp]

theorem jfieldGet_erase_self (fs : List (String × JVal)) (k : String) :
    jfieldGet (jfieldErase fs k) k = none := by
  induction fs with
  | nil => rfl
  | cons p rest ih =>
    by_cases hp : p.1 = k
    · rw [jfieldErase_cons_pos p rest k hp]
      exact ih
    · rw [jfieldErase_cons_neg p rest k hp]
      simp only [jfieldGet, if_neg hp]
      exact ih

theorem jfieldGet_erase_ne (fs : List (String × JVal)) (k k' : String)
    (h : k' ≠ k) :
    jfieldGet (jfieldErase fs k) k' = jfieldGet fs k' := by
  induction fs with
  | nil => rfl
  | cons p rest ih =>
    by_cases hp : p.1 = k
    · have hpk : ¬ (p.1 = k') := by rw [hp]; exact fun hc => h hc.symm
      rw [jfieldErase_cons_pos p rest k hp, ih]
      simp only [jfieldGet, if_neg hpk]
    · rw [jfieldErase_cons_neg p rest k hp]
      by_cases hpk : p.1 = k'
      · simp only [jfieldGet, if_pos hpk]
      · simp only [jfieldGet, if_neg hpk]
        exact ih

theorem fallbackMetadata_get_stripped (job : Job) (reason : String)
    (ch : Channel) (now : Nat) (key : String)
    (hkey : key = "fallback" ∨ key = "fallbackEmailAudience" ∨
      key = "fallbackSmsAudience") :
    jfieldGet (fallbackMetadata job reason ch now) key = none := by
  unfold fallbackMetadata
  have h1 : key ≠ "fallbackQueuedAt" := by rcases hkey with h | h | h <;> simp [h]
  have h2 : key ≠ "fallbackReason" := by rcases hkey with h | h | h <;> simp [h]
  have h3 : key ≠ "fallbackToChannel" := by rcases hkey with h | h | h <;> simp [h]
  have h4 : key ≠ "fallbackFromChannel" := by rcases hkey with h | h | h <;> simp [h]
  have h5 : key ≠ "fallbackFromJobId" := by rcases hkey with h | h | h <;> simp [h]
  have h6 : key ≠ "source" := by rcases hkey with h | h | h <;> simp [h]
  rw [jfieldGet_set_ne _ _ _ _ h1, jfieldGet_set_ne _ _ _ _ h2,
    jfieldGet_set_ne _ _ _ _ h3, jfieldGet_set_ne _ _ _ _ h4,
    jfieldGet_set_ne _ _ _ _ h5, jfieldGet_set_ne _ _ _ _ h6]
  rcases hkey with h | h | h
  · rw [h, jfieldGet_erase_ne _ _ _ (by simp), jfieldGet_erase_ne _ _ _ (by simp),
      jfieldGet_erase_self]
  · rw [h, jfieldGet_erase_ne _ _ _ (by simp), jfieldGet_erase_self]
  · rw [h, jfieldGet_erase_self]

/-! ### A precise specification of queueNotification -/

/-- The job record `queueNotification` creates on the success path
(read off the `create` call in the source). -/
def queuedJobOf (opts : ServiceOptions) (now : Nat) (input : QueueInput)
    (ch : Channel) (S : Store) : Job :=
  { id := S.nextId,
    businessId := jsTrim input.businessId,
    channel := ch,
    audience := if jsTrim input.audience = "" then "all" else jsTrim input.audience,
    subject :=
      match input.subject with
      | some s => if jsTrim s = "" then none else some (jsTrim s)
      | none => none,
    message := jsTrim input.message,
    metadata := input.metadata,
    status := .queued,
    provider := none,
    attempts := 0,
    maxAttempts := (resolveMaxAttempts opts input.maxAttempts).toNat,
    nextAttemptAt :=
      match readScheduledFor opts input.metadata with
      | some t => if now < t then t else now
      | none => now,
    lastAttemptAt := none, sentAt := none, failedAt := none, lastError := none,
    createdAt := now, updatedAt := now }

/-- The `queued` audit entry `queueNotification` appends on success. -/
def queuedAuditOf (opts : ServiceOptions) (now : Nat) (input : QueueInput)
    (ch : Channel) (S : Store) : AuditEntry :=
  { id := S.nextAuditId, jobId := S.nextId, event := .queued, channel := ch,
    provider := none, attempt := some 0, message := "Notification queued",
    detail := some (.obj
      [("audience", .str (queuedJobOf opts now input ch S).audience),
       ("maxAttempts",
         .num (Int.ofNat (queuedJobOf opts now input ch S).maxAttempts)),
       ("scheduledFor", jvalOfTimestamp (readScheduledFor opts input.metadata))]),
    createdAt := now }

/-- The store after a successful enqueue: the created job and its `queued`
audit entry appended, both id counters advanced. -/
def afterEnqueue (opts : ServiceOptions) (now : Nat) (input : QueueInput)
    (ch : Channel) (S : Store) : Store :=
  { notifications := S.notifications ++ [queuedJobOf opts now input ch S],
    auditLogs := S.auditLogs ++ [queuedAuditOf opts now input ch S],
    nextId := S.nextId + 1,
    nextAuditId := S.nextAuditId + 1 }

theorem queueNotification_ok (opts : ServiceOptions) (now : Nat)
    (input : QueueInput) (S : Store) (ch : Channel)
    (hval : ¬ (jsTrim input.businessId = "" ∨ jsTrim input.message = ""))
    (hch : parseChannel (jsToLower (jsTrim input.channel)) = some ch)
    (hrange : ¬ (resolveMaxAttempts opts input.maxAttempts < 1 ∨
      10 < resolveMaxAttempts opts input.maxAttempts))
    (harr : ¬ (isArr input.metadata = true)) :
    queueNotification opts now input S =
      (.ok (queuedJobOf opts now input ch S), afterEnqueue opts now input ch S) := by
  unfold queueNotification
  rw [if_neg hval, hch]
  dsimp only
  rw [if_neg hrange, if_neg harr]
  rfl

theorem queueNotification_err_val (opts : ServiceOptions) (now : Nat)
    (input : QueueInput) (S : Store)
    (hval : jsTrim input.businessId = "" ∨ jsTrim input.message = "") :
    queueNotification opts now input S =
      (.error ⟨400, "Missing businessId or message"⟩, S) := by
  unfold queueNotification
  rw [if_pos hval]

theorem queueNotification_err_channel (opts : ServiceOptions) (now : Nat)
    (input : QueueInput) (S : Store)
    (hval : ¬ (jsTrim input.businessId = "" ∨ jsTrim input.message = ""))
    (hch : parseChannel (jsToLower (jsTrim input.channel)) = none) :
    queueNotification opts now input S =
      (.error ⟨400, "Invalid notification channel"⟩, S) := by
  unfold queueNotification
  rw [if_neg hval, hch]

theorem queueNotification_err_range (opts : ServiceOptions) (now : Nat)
    (input : QueueInput) (S : Store) (ch : Channel)
    (hval : ¬ (jsTrim input.businessId = "" ∨ jsTrim input.message = ""))
    (hch : parseChannel (jsToLower (jsTrim input.channel)) = some ch)
    (hrange : resolveMaxAttempts opts input.maxAttempts < 1 ∨
      10 < resolveMaxAttempts opts input.maxAttempts) :
    queueNotification opts now input S =
      (.error ⟨400, "maxAttempts must be between 1 and 10"⟩, S) := by
  unfold queueNotification
  rw [if_neg hval, hch]
  dsimp only
  rw [if_pos hrange]

theorem queueNotification_err_arr (opts : ServiceOptions) (now : Nat)
    (input : QueueInput) (S : Store) (ch : Channel)
    (hval : ¬ (jsTrim input.businessId = "" ∨ jsTrim input.message = ""))
    (hch : parseChannel (jsToLower (jsTrim input.channel)) = some ch)
    (hrange : ¬ (resolveMaxAttempts opts input.maxAttempts < 1 ∨
      10 < resolveMaxAttempts opts input.maxAttempts))
    (harr : isArr input.metadata = true) :
    queueNotification opts now input S =
      (.error ⟨400, "metadata must be an object"⟩, S) := by
  unfold queueNotification
  rw [if_neg hval, hch]
  dsimp only
  rw [if_neg hrange, if_pos harr]

/-- C6: fallback jobs are enqueued with the `fallback`,
`fallbackEmailAudience` and `fallbackSmsAudience` keys stripped from their
metadata; the enqueued job carries the input metadata verbatim; and a job
whose fallback targets read as none never enqueues further fallback jobs
(its store is returned unchanged), so the cascade is capped at one level. -/
theorem C6_fallback_cascade_capped :
    (∀ job reason ch now,
      mget (some (.obj (fallbackMetadata job reason ch now))) "fallback" = none ∧
      mget (some (.obj (fallbackMetadata job reason ch now)))
        "fallbackEmailAudience" = none ∧
      mget (some (.obj (fallbackMetadata job reason ch now)))
        "fallbackSmsAudience" = none ∧
      readFallbackTargets (some (.obj (fallbackMetadata job reason ch now))) =
        ⟨none, none⟩) ∧
    (∀ job err now ch aud,
      (fallbackInput job err now ch aud).metadata =
        some (.obj (fallbackMetadata job err ch now))) ∧
    (∀ opts now input S j,
      (queueNotification opts now input S).1 = .ok j →
      j.metadata = input.metadata) ∧
    (∀ opts now fb provider attempt err S,
      readFallbackTargets fb.metadata = ⟨none, none⟩ →
      queuePushFallbackJobs opts now fb provider attempt err S =
        (.ok ([], if fb.channel = .push then [Channel.email, Channel.sms] else []),
          S)) := by
  refine ⟨?_, ?_, ?_, ?_⟩
  · intro job reason ch now
    have hf := fallbackMetadata_get_stripped job reason ch now "fallback"
      (Or.inl rfl)
    have he := fallbackMetadata_get_stripped job reason ch now
      "fallbackEmailAudience" (Or.inr (Or.inl rfl))
    have hs := fallbackMetadata_get_stripped job reason ch now
      "fallbackSmsAudience" (Or.inr (Or.inr rfl))
    refine ⟨hf, he, hs, ?_⟩
    unfold readFallbackTargets
    simp only [mget, JVal.get] at hf he hs ⊢
    rw [hf, he, hs]
    rfl
  · intro job err now ch aud
    rfl
  · intro opts now input S j h
    by_cases hval : (jsTrim input.businessId = "" ∨ jsTrim input.message = "")
    · rw [queueNotification_err_val opts now input S hval] at h
      exact absurd h (by simp)
    · cases hch : parseChannel (jsToLower (jsTrim input.channel)) with
      | none =>
        rw [queueNotification_err_channel opts now input S hval hch] at h
        exact absurd h (by simp)
      | some ch =>
        by_cases hrange : (resolveMaxAttempts opts input.maxAttempts < 1 ∨
            10 < resolveMaxAttempts opts input.maxAttempts)
        · rw [queueNotification_err_range opts now input S ch hval hch hrange] at h
          exact absurd h (by simp)
        · by_cases harr : isArr input.metadata = true
          · rw [queueNotification_err_arr opts now input S ch hval hch hrange harr] at h
            exact absurd h (by simp)
          · rw [queueNotification_ok opts now input S ch hval hch hrange harr] at h
            simp only [Except.ok.injEq] at h
            rw [← h]
            rfl
  · intro opts now fb provider attempt err S h
    exact queuePushFallbackJobs_no_targets opts now fb provider attempt err S
      (Or.inr h)

/-! ### Claim C7: manual retry -/

theorem getById_some_id (S : Store) (i : Nat) (j : Job)
    (h : S.getById i = some j) : j.id = i := by
  have := List.find?_some h
  simpa using this

/-- C7: manual retry fails with 404 when the job does not exist, with a
409 conflict when the job is `sent` or its attempt budget is exhausted,
and in every other case — regardless of status, in particular for a push
job left `failed` by the fallback path with `attempts < maxAttempts` —
succeeds, setting `status=retrying`, `nextAttemptAt=now`, clearing
`failedAt`/`lastError`, leaving `attempts` unchanged, and appending a
`retry_requested` audit entry. -/
theorem C7_manual_retry (now jobId : Nat) (S : Store) :
    (S.getById jobId = none →
      retryJob now jobId S = (.error ⟨404, "Notification job not found"⟩, S)) ∧
    (∀ job, S.getById jobId = some job → job.status = .sent →
      retryJob now jobId S =
        (.error ⟨409, "Sent jobs cannot be retried"⟩, S)) ∧
    (∀ job, S.getById jobId = some job → job.status ≠ .sent →
      job.maxAttempts ≤ job.attempts →
      retryJob now jobId S =
        (.error ⟨409, "Retry budget exhausted for this job"⟩, S)) ∧
    (∀ job, S.getById jobId = some job → job.status ≠ .sent →
      job.attempts < job.maxAttempts →
      ∃ r S' entry,
        retryJob now jobId S = (.ok r, S') ∧
        r.status = .retrying ∧ r.nextAttemptAt = now ∧ r.failedAt = none ∧
        r.lastError = none ∧ r.attempts = job.attempts ∧
        r.id = job.id ∧
        S'.getById jobId = some r ∧
        S'.auditLogs = S.auditLogs ++ [entry] ∧
        entry.event = .retry_requested ∧ entry.jobId = job.id ∧
        entry.attempt = some job.attempts) := by
  refine ⟨?_, ?_, ?_, ?_⟩
  · intro h
    unfold retryJob
    rw [h]
  · intro job h hsent
    unfold retryJob
    rw [h]
    dsimp only
    rw [if_pos hsent]
  · intro job h hsent hbudget
    unfold retryJob
    rw [h]
    dsimp only
    rw [if_neg hsent, if_pos hbudget]
  · intro job h hsent hbudget
    have hid : job.id = jobId := getById_some_id S jobId job h
    have hcur : S.getById job.id = some job := by rw [hid]; exact h
    have hupd : (S.updateJob job.id
        { status := some .retrying, nextAttemptAt := some now,
          failedAt := some none, lastError := some none } now).1 =
        some (applyPatch job
          { status := some .retrying, nextAttemptAt := some now,
            failedAt := some none, lastError := some none } now) := by
      rw [updateJob_fst, hcur]
      rfl
    refine ⟨applyPatch job
        { status := some .retrying, nextAttemptAt := some now,
          failedAt := some none, lastError := some none } now,
      ((S.updateJob job.id
        { status := some .retrying, nextAttemptAt := some now,
          failedAt := some none, lastError := some none } now).2.createAuditLog
        { jobId := job.id, event := .retry_requested,
          channel := job.channel, provider := job.provider,
          attempt := some job.attempts,
          message := "Manual retry requested", detail := none } now).2,
      ((S.updateJob job.id
        { status := some .retrying, nextAttemptAt := some now,
          failedAt := some none, lastError := some none } now).2.createAuditLog
        { jobId := job.id, event := .retry_requested,
          channel := job.channel, provider := job.provider,
          attempt := some job.attempts,
          message := "Manual retry requested", detail := none } now).1,
      ?_, rfl, rfl, rfl, rfl, rfl, rfl, ?_, ?_, rfl, rfl, rfl⟩
    · show retryJob now jobId S = _
      unfold retryJob
      rw [h]
      dsimp only
      rw [if_neg hsent, if_neg (by omega : ¬ job.maxAttempts ≤ job.attempts),
        hupd]
    · rw [getById_createAuditLog, ← hid, getById_updateJob_self, hcur]
      rfl
    · rw [createAuditLog_auditLogs, updateJob_auditLogs]

/-! ### Claims C8 and C10: enqueue validation -/

/-- Fixture: options with default `maxAttempts` 3 and noop providers. -/
def cOpts : ServiceOptions :=
  { providers := fun ch => noopProvider ch, defaultMaxAttempts := 3,
    retryBaseMs := 500, retryMaxMs := 60000, parseDate := fun _ => none }

/-- Fixture: an otherwise-valid enqueue input that supplies
`maxAttempts = 0`. -/
def cInputZero : QueueInput :=
  { businessId := "biz-1", channel := "email", audience := "ops@example.com",
    subject := none, message := "hello", metadata := none,
    maxAttempts := some 0 }

/-- C8 counterexample: the input supplies `maxAttempts = 0`, which is not
an integer in `[1,10]`, yet enqueue does **not** reject it: the job is
created (with the configured default of 3) and a `queued` audit entry is
written, because `input.maxAttempts && ...` treats the falsy `0` as
absent. -/
theorem C8_counterexample :
    cInputZero.maxAttempts = some 0 ∧
    ¬ ((1 : ℚ) ≤ 0 ∧ (0 : ℚ) ≤ 10) ∧
    (∃ j, (queueNotification cOpts 1000 cInputZero emptyStore).1 = .ok j ∧
      j.maxAttempts = 3) ∧
    (queueNotification cOpts 1000 cInputZero emptyStore).2.notifications.length = 1 ∧
    (queueNotification cOpts 1000 cInputZero emptyStore).2.auditLogs.length = 1 := by
  have hok := queueNotification_ok cOpts 1000 cInputZero emptyStore .email
    (by decide) (by decide) (by decide) (by decide)
  refine ⟨rfl, by norm_num,
    ⟨queuedJobOf cOpts 1000 cInputZero .email emptyStore, ?_, ?_⟩, ?_, ?_⟩
  · rw [hok]
  · decide
  · rw [hok]
    rfl
  · rw [hok]
    rfl

/-- C8 (amended): when `maxAttempts` is absent, or supplied as the falsy
`0` (or a non-finite number), the configured default is used in its place;
when supplied non-zero it is truncated toward zero; enqueue rejects with a
400 validation error — leaving the store untouched — iff the resolved
value lies outside `[1,10]`; otherwise the created job carries exactly the
resolved value. -/
theorem C8_maxAttempts_amended (opts : ServiceOptions) (now : Nat)
    (input : QueueInput) (S : Store) (ch : Channel)
    (hval : ¬ (jsTrim input.businessId = "" ∨ jsTrim input.message = ""))
    (hch : parseChannel (jsToLower (jsTrim input.channel)) = some ch) :
    (input.maxAttempts = none →
      resolveMaxAttempts opts input.maxAttempts = (opts.defaultMaxAttempts : Int)) ∧
    (∀ q, input.maxAttempts = some q → q = 0 →
      resolveMaxAttempts opts input.maxAttempts = (opts.defaultMaxAttempts : Int)) ∧
    (∀ q, input.maxAttempts = some q → q ≠ 0 →
      resolveMaxAttempts opts input.maxAttempts = jsTrunc q) ∧
    ((resolveMaxAttempts opts input.maxAttempts < 1 ∨
        10 < resolveMaxAttempts opts input.maxAttempts) →
      queueNotification opts now input S =
        (.error ⟨400, "maxAttempts must be between 1 and 10"⟩, S)) ∧
    (¬ (resolveMaxAttempts opts input.maxAttempts < 1 ∨
        10 < resolveMaxAttempts opts input.maxAttempts) →
     ¬ isArr input.metadata = true →
      ∃ j S', queueNotification opts now input S = (.ok j, S') ∧
        j.maxAttempts = (resolveMaxAttempts opts input.maxAttempts).toNat ∧
        S'.notifications = S.notifications ++ [j] ∧
        S'.auditLogs.length = S.auditLogs.length + 1) := by
  refine ⟨?_, ?_, ?_, ?_, ?_⟩
  · intro h
    simp [resolveMaxAttempts, h]
  · intro q h hq
    simp [resolveMaxAttempts, h, hq]
  · intro q h hq
    simp [resolveMaxAttempts, h, hq]
  · intro h
    exact queueNotification_err_range opts now input S ch hval hch h
  · intro hrange harr
    refine ⟨queuedJobOf opts now input ch S, afterEnqueue opts now input ch S,
      queueNotification_ok opts now input S ch hval hch hrange harr, rfl, rfl, ?_⟩
    simp [afterEnqueue]

/-- C10 (implicit): enqueue never rejects an input for its audience — with
every other validation passing, enqueue succeeds for every audience
string, and when the audience is empty or whitespace-only the created job
carries the literal audience `"all"`, which is also what the `queued`
audit detail records and what `buildDispatchInput` later hands to the
provider. -/
theorem C10_audience_defaults (opts : ServiceOptions) (now : Nat)
    (input : QueueInput) (S : Store) (ch : Channel)
    (hval : ¬ (jsTrim input.businessId = "" ∨ jsTrim input.message = ""))
    (hch : parseChannel (jsToLower (jsTrim input.channel)) = some ch)
    (hrange : ¬ (resolveMaxAttempts opts input.maxAttempts < 1 ∨
      10 < resolveMaxAttempts opts input.maxAttempts))
    (harr : ¬ (isArr input.metadata = true))
    (haud : jsTrim input.audience = "") :
    ∃ j S',
      queueNotification opts now input S = (.ok j, S') ∧
      j.audience = "all" ∧
      (∀ a : String,
        ((queueNotification opts now { input with audience := a } S).1).isOk = true) ∧
      (∃ entry, S'.auditLogs = S.auditLogs ++ [entry] ∧
        entry.event = .queued ∧
        entry.detail = some (.obj
          [("audience", .str j.audience),
           ("maxAttempts", .num (Int.ofNat j.maxAttempts)),
           ("scheduledFor", jvalOfTimestamp (readScheduledFor opts input.metadata))])) ∧
      (∀ attempt, (buildDispatchInput j attempt).audience = j.audience) := by
  refine ⟨queuedJobOf opts now input ch S, afterEnqueue opts now input ch S,
    queueNotification_ok opts now input S ch hval hch hrange harr, ?_, ?_, ?_, ?_⟩
  · show (if jsTrim input.audience = "" then "all" else jsTrim input.audience) = "all"
    rw [if_pos haud]
  · intro a
    rw [queueNotification_ok opts now { input with audience := a } S ch hval hch
      hrange harr]
    rfl
  · exact ⟨queuedAuditOf opts now input ch S, rfl, rfl, rfl⟩
  · intro attempt
    rfl

/-! ### Supporting lemmas for the push-fallback path -/

theorem jfieldGet_of_any_false (fs : List (String × JVal)) (k : String)
    (h : fs.any (fun p => p.1 == k) = false) : jfieldGet fs k = none := by
  induction fs with
  | nil => rfl
  | cons p rest ih =>
    simp only [List.any_cons, Bool.or_eq_false_iff] at h
    have hp : ¬ (p.1 = k) := by
      intro hc
      rw [hc] at h
      simp at h
    simp [jfieldGet, hp, ih h.2]

theorem jfieldGet_map_set_self (fs : List (String × JVal)) (k : String)
    (v : JVal) (h : fs.any (fun p => p.1 == k) = true) :
    jfieldGet (fs.map (fun p => if p.1 = k then (k, v) else p)) k = some v := by
  induction fs with
  | nil => simp at h
  | cons p rest ih =>
    rw [List.map_cons]
    by_cases hp : p.1 = k
    · rw [if_pos hp]
      simp [jfieldGet]
    · rw [if_neg hp]
      simp only [List.any_cons, Bool.or_eq_true] at h
      rcases h with h | h
      · exact absurd (by simpa using h) hp
      · simp only [jfieldGet, if_neg hp]
        exact ih h

theorem jfieldGet_set_self (fs : List (String × JVal)) (k : String) (v : JVal) :
    jfieldGet (jfieldSet fs k v) k = some v := by
  unfold jfieldSet
  rcases hany : fs.any (fun p => p.1 == k) with _ | _
  · rw [if_neg (by simp : ¬ (false = true))]
    rw [jfieldGet_append, jfieldGet_of_any_false fs k hany]
    simp [jfieldGet]
  · rw [if_pos (rfl : true = true)]
    exact jfieldGet_map_set_self fs k v hany

theorem normalizeAudience_spec (v : Option JVal) (a : String)
    (h : normalizeAudience v = some a) : jsTrim a = a ∧ a ≠ "" := by
  match v with
  | some (.str s) =>
    simp only [normalizeAudience] at h
    split at h
    · have ha : a = jsTrim s := (Option.some.inj h).symm
      subst ha
      refine ⟨jsTrim_idem s, ?_⟩
      intro hc
      simp_all
    · exact absurd h (by simp)
  | some .null | some (.bool _) | some (.num _) | some (.arr _)
  | some (.obj _) | none =>
    exact absurd h (by simp [normalizeAudience])

theorem orElse_eq_some {α : Type} (x y : Option α) (a : α)
    (h : (x <|> y) = some a) : x = some a ∨ y = some a := by
  cases x with
  | none => right; simpa using h
  | some b => left; simpa using h

theorem readFallbackTargets_email_trimmed (md : Option JVal) (a : String)
    (h : (readFallbackTargets md).emailAudience = some a) :
    jsTrim a = a ∧ a ≠ "" := by
  unfold readFallbackTargets at h
  simp only at h
  rcases orElse_eq_some _ _ _ h with h' | h' <;>
    exact normalizeAudience_spec _ _ h'

theorem readFallbackTargets_sms_trimmed (md : Option JVal) (a : String)
    (h : (readFallbackTargets md).smsAudience = some a) :
    jsTrim a = a ∧ a ≠ "" := by
  unfold readFallbackTargets at h
  simp only at h
  rcases orElse_eq_some _ _ _ h with h' | h' <;>
    exact normalizeAudience_spec _ _ h'

theorem jsTrunc_natCast (n : Nat) : jsTrunc ((n : ℚ)) = (n : Int) := by
  unfold jsTrunc
  rw [if_neg]
  · exact Int.floor_natCast n
  · simp

theorem resolveMaxAttempts_natCast (opts : ServiceOptions) (m : Nat)
    (h : 1 ≤ m) : resolveMaxAttempts opts (some ((m : ℚ))) = (m : Int) := by
  have hq : ((m : ℚ)) ≠ 0 := by
    simp only [ne_eq, Nat.cast_eq_zero]
    omega
  unfold resolveMaxAttempts
  dsimp only
  rw [if_pos hq]
  exact jsTrunc_natCast m

theorem getById_createJob_of_some (S : Store) (p : CreateJobParams) (now : Nat)
    (i : Nat) (x : Job) (h : S.getById i = some x) :
    (S.createJob p now).2.getById i = some x := by
  unfold Store.getById at h ⊢
  rw [createJob_notifications, List.find?_append, h]
  rfl

theorem find?_append_of_some (l l2 : List Job) (pred : Job → Bool) (x : Job)
    (h : l.find? pred = some x) : (l ++ l2).find? pred = some x := by
  rw [List.find?_append, h]
  rfl

theorem replaceFirst_append_left (l l2 : List Job) (id : Nat) (f : Job → Job)
    (x : Job) (h : l.find? (fun j => j.id == id) = some x) :
    replaceFirst (l ++ l2) id f =
      ((replaceFirst l id f).1, (replaceFirst l id f).2 ++ l2) := by
  induction l with
  | nil => simp [List.find?] at h
  | cons j rest ih =>
    by_cases hj : j.id = id
    · simp [replaceFirst, hj]
    · have hb : ¬ ((fun x : Job => x.id == id) j) = true := by simp [hj]
      rw [List.find?_cons_of_neg rest hb] at h
      simp [replaceFirst, hj, ih h]

theorem fallbackMetadata_get_source (job : Job) (reason : String)
    (ch : Channel) (now : Nat) :
    jfieldGet (fallbackMetadata job reason ch now) "source" =
      some (.str "push-fallback") := by
  unfold fallbackMetadata
  rw [jfieldGet_set_ne _ _ _ _ (by simp), jfieldGet_set_ne _ _ _ _ (by simp),
    jfieldGet_set_ne _ _ _ _ (by simp), jfieldGet_set_ne _ _ _ _ (by simp),
    jfieldGet_set_ne _ _ _ _ (by simp), jfieldGet_set_self]

theorem fallbackMetadata_get_fromJobId (job : Job) (reason : String)
    (ch : Channel) (now : Nat) :
    jfieldGet (fallbackMetadata job reason ch now) "fallbackFromJobId" =
      some (.num (Int.ofNat job.id)) := by
  unfold fallbackMetadata
  rw [jfieldGet_set_ne _ _ _ _ (by simp), jfieldGet_set_ne _ _ _ _ (by simp),
    jfieldGet_set_ne _ _ _ _ (by simp), jfieldGet_set_ne _ _ _ _ (by simp),
    jfieldGet_set_self]

theorem fallbackInput_hval (job : Job) (err : String) (now : Nat) (ch : Channel)
    (aud : String) (hbt : jsTrim job.businessId = job.businessId)
    (hb0 : job.businessId ≠ "") (hmt : jsTrim job.message = job.message)
    (hm0 : job.message ≠ "") :
    ¬ (jsTrim (fallbackInput job err now ch aud).businessId = "" ∨
      jsTrim (fallbackInput job err now ch aud).message = "") := by
  have h1 : (fallbackInput job err now ch aud).businessId = job.businessId := rfl
  have h2 : (fallbackInput job err now ch aud).message = job.message := rfl
  rw [h1, h2, hbt, hmt]
  simp [hb0, hm0]

theorem fallbackInput_hch_email (job : Job) (err : String) (now : Nat)
    (aud : String) :
    parseChannel
      (jsToLower (jsTrim (fallbackInput job err now .email aud).channel)) =
      some .email := by
  have h : (fallbackInput job err now .email aud).channel = "email" := rfl
  rw [h]
  decide

theorem fallbackInput_hch_sms (job : Job) (err : String) (now : Nat)
    (aud : String) :
    parseChannel
      (jsToLower (jsTrim (fallbackInput job err now .sms aud).channel)) =
      some .sms := by
  have h : (fallbackInput job err now .sms aud).channel = "sms" := rfl
  rw [h]
  decide

theorem fallbackInput_hrange (opts : ServiceOptions) (job : Job) (err : String)
    (now : Nat) (ch : Channel) (aud : String)
    (hma : 1 ≤ job.maxAttempts) (hma10 : job.maxAttempts ≤ 10) :
    ¬ (resolveMaxAttempts opts (fallbackInput job err now ch aud).maxAttempts < 1 ∨
      10 < resolveMaxAttempts opts (fallbackInput job err now ch aud).maxAttempts) := by
  have h : resolveMaxAttempts opts (fallbackInput job err now ch aud).maxAttempts =
      (job.maxAttempts : Int) :=
    resolveMaxAttempts_natCast opts job.maxAttempts hma
  rw [h]
  omega

theorem fallbackInput_harr (job : Job) (err : String) (now : Nat) (ch : Channel)
    (aud : String) :
    ¬ (isArr (fallbackInput job err now ch aud).metadata = true) := by
  simp [fallbackInput, isArr]

theorem queuedJobOf_fallback_fields (opts : ServiceOptions) (now : Nat)
    (job : Job) (err : String) (ch : Channel) (aud : String) (S : Store)
    (hmt : jsTrim job.message = job.message)
    (htrim : jsTrim aud = aud) (hne : aud ≠ "")
    (hma : 1 ≤ job.maxAttempts) :
    (queuedJobOf opts now (fallbackInput job err now ch aud) ch S).channel = ch ∧
    (queuedJobOf opts now (fallbackInput job err now ch aud) ch S).audience = aud ∧
    (queuedJobOf opts now (fallbackInput job err now ch aud) ch S).message =
      job.message ∧
    (queuedJobOf opts now (fallbackInput job err now ch aud) ch S).maxAttempts =
      job.maxAttempts ∧
    (queuedJobOf opts now (fallbackInput job err now ch aud) ch S).status =
      .queued ∧
    (queuedJobOf opts now (fallbackInput job err now ch aud) ch S).attempts = 0 ∧
    (queuedJobOf opts now (fallbackInput job err now ch aud) ch S).metadata =
      some (.obj (fallbackMetadata job err ch now)) := by
  refine ⟨rfl, ?_, ?_, ?_, rfl, rfl, rfl⟩
  · show (if jsTrim (fallbackInput job err now ch aud).audience = "" then "all"
      else jsTrim (fallbackInput job err now ch aud).audience) = aud
    have haud : (fallbackInput job err now ch aud).audience = aud := rfl
    rw [haud, htrim, if_neg hne]
  · show jsTrim (fallbackInput job err now ch aud).message = job.message
    have hmsg : (fallbackInput job err now ch aud).message = job.message := rfl
    rw [hmsg, hmt]
  · show (resolveMaxAttempts opts
      (fallbackInput job err now ch aud).maxAttempts).toNat = job.maxAttempts
    have h : resolveMaxAttempts opts
        (fallbackInput job err now ch aud).maxAttempts = (job.maxAttempts : Int) :=
      resolveMaxAttempts_natCast opts job.maxAttempts hma
    rw [h]
    exact Int.toNat_natCast job.maxAttempts

/-! ### Exact specifications of queuePushFallbackJobs per target shape -/

theorem afterEnqueue_notifications (opts : ServiceOptions) (now : Nat)
    (input : QueueInput) (ch : Channel) (T : Store) :
    (afterEnqueue opts now input ch T).notifications =
      T.notifications ++ [queuedJobOf opts now input ch T] := rfl

theorem afterEnqueue_auditLogs (opts : ServiceOptions) (now : Nat)
    (input : QueueInput) (ch : Channel) (T : Store) :
    (afterEnqueue opts now input ch T).auditLogs =
      T.auditLogs ++ [queuedAuditOf opts now input ch T] := rfl

theorem getById_afterEnqueue_of_some (opts : ServiceOptions) (now : Nat)
    (input : QueueInput) (ch : Channel) (T : Store) (i : Nat) (x : Job)
    (h : T.getById i = some x) :
    (afterEnqueue opts now input ch T).getById i = some x :=
  find?_append_of_some T.notifications _ _ x h

/-- The channels on which the fallback path enqueues jobs: email and/or
sms, according to which fallback audiences are present. -/
def expectedFallbackChannels (job : Job) : List Channel :=
  (if (readFallbackTargets job.metadata).emailAudience.isSome
    then [Channel.email] else []) ++
  (if (readFallbackTargets job.metadata).smsAudience.isSome
    then [Channel.sms] else [])

theorem queuePushFallbackJobs_both (opts : ServiceOptions) (now : Nat)
    (job : Job) (provider : Provider) (attempt : Nat) (msg : String)
    (T : Store) (a b : String)
    (hch : job.channel = .push)
    (htE : (readFallbackTargets job.metadata).emailAudience = some a)
    (htS : (readFallbackTargets job.metadata).smsAudience = some b)
    (hbt : jsTrim job.businessId = job.businessId) (hb0 : job.businessId ≠ "")
    (hmt : jsTrim job.message = job.message) (hm0 : job.message ≠ "")
    (hma : 1 ≤ job.maxAttempts) (hma10 : job.maxAttempts ≤ 10) :
    queuePushFallbackJobs opts now job provider attempt msg T =
      (.ok
        ([queuedJobOf opts now (fallbackInput job msg now .email a) .email T,
          queuedJobOf opts now (fallbackInput job msg now .sms b) .sms
            (afterEnqueue opts now (fallbackInput job msg now .email a) .email T)],
         []),
       ((afterEnqueue opts now (fallbackInput job msg now .sms b) .sms
          (afterEnqueue opts now (fallbackInput job msg now .email a) .email T)).createAuditLog
         (fallbackAuditParams job provider attempt msg
           [queuedJobOf opts now (fallbackInput job msg now .email a) .email T,
            queuedJobOf opts now (fallbackInput job msg now .sms b) .sms
              (afterEnqueue opts now (fallbackInput job msg now .email a) .email T)])
         now).2) := by
  simp only [queuePushFallbackJobs]
  rw [hch]
  rw [if_neg (by simp)]
  rw [htE, htS]
  simp only [enqueueFallbackCandidates]
  rw [queueNotification_ok opts now (fallbackInput job msg now .email a) T .email
    (fallbackInput_hval job msg now .email a hbt hb0 hmt hm0)
    (fallbackInput_hch_email job msg now a)
    (fallbackInput_hrange opts job msg now .email a hma hma10)
    (fallbackInput_harr job msg now .email a)]
  dsimp only
  rw [queueNotification_ok opts now (fallbackInput job msg now .sms b)
    (afterEnqueue opts now (fallbackInput job msg now .email a) .email T) .sms
    (fallbackInput_hval job msg now .sms b hbt hb0 hmt hm0)
    (fallbackInput_hch_sms job msg now b)
    (fallbackInput_hrange opts job msg now .sms b hma hma10)
    (fallbackInput_harr job msg now .sms b)]
  dsimp only
  rw [if_pos (by simp)]

theorem queuePushFallbackJobs_email_only (opts : ServiceOptions) (now : Nat)
    (job : Job) (provider : Provider) (attempt : Nat) (msg : String)
    (T : Store) (a : String)
    (hch : job.channel = .push)
    (htE : (readFallbackTargets job.metadata).emailAudience = some a)
    (htS : (readFallbackTargets job.metadata).smsAudience = none)
    (hbt : jsTrim job.businessId = job.businessId) (hb0 : job.businessId ≠ "")
    (hmt : jsTrim job.message = job.message) (hm0 : job.message ≠ "")
    (hma : 1 ≤ job.maxAttempts) (hma10 : job.maxAttempts ≤ 10) :
    queuePushFallbackJobs opts now job provider attempt msg T =
      (.ok
        ([queuedJobOf opts now (fallbackInput job msg now .email a) .email T],
         [Channel.sms]),
       ((afterEnqueue opts now (fallbackInput job msg now .email a) .email T).createAuditLog
         (fallbackAuditParams job provider attempt msg
           [queuedJobOf opts now (fallbackInput job msg now .email a) .email T])
         now).2) := by
  simp only [queuePushFallbackJobs]
  rw [hch]
  rw [if_neg (by simp)]
  rw [htE, htS]
  simp only [enqueueFallbackCandidates]
  rw [queueNotification_ok opts now (fallbackInput job msg now .email a) T .email
    (fallbackInput_hval job msg now .email a hbt hb0 hmt hm0)
    (fallbackInput_hch_email job msg now a)
    (fallbackInput_hrange opts job msg now .email a hma hma10)
    (fallbackInput_harr job msg now .email a)]
  dsimp only
  rw [if_pos (by simp)]

theorem queuePushFallbackJobs_sms_only (opts : ServiceOptions) (now : Nat)
    (job : Job) (provider : Provider) (attempt : Nat) (msg : String)
    (T : Store) (b : String)
    (hch : job.channel = .push)
    (htE : (readFallbackTargets job.metadata).emailAudience = none)
    (htS : (readFallbackTargets job.metadata).smsAudience = some b)
    (hbt : jsTrim job.businessId = job.businessId) (hb0 : job.businessId ≠ "")
    (hmt : jsTrim job.message = job.message) (hm0 : job.message ≠ "")
    (hma : 1 ≤ job.maxAttempts) (hma10 : job.maxAttempts ≤ 10) :
    queuePushFallbackJobs opts now job provider attempt msg T =
      (.ok
        ([queuedJobOf opts now (fallbackInput job msg now .sms b) .sms T],
         [Channel.email]),
       ((afterEnqueue opts now (fallbackInput job msg now .sms b) .sms T).createAuditLog
         (fallbackAuditParams job provider attempt msg
           [queuedJobOf opts now (fallbackInput job msg now .sms b) .sms T])
         now).2) := by
  simp only [queuePushFallbackJobs]
  rw [hch]
  rw [if_neg (by simp)]
  rw [htE, htS]
  simp only [enqueueFallbackCandidates]
  rw [queueNotification_ok opts now (fallbackInput job msg now .sms b) T .sms
    (fallbackInput_hval job msg now .sms b hbt hb0 hmt hm0)
    (fallbackInput_hch_sms job msg now b)
    (fallbackInput_hrange opts job msg now .sms b hma hma10)
    (fallbackInput_harr job msg now .sms b)]
  dsimp only
  rw [if_pos (by simp)]

/-! ### The markAttemptFailure fallback path -/

theorem updateJob_fst_of_getById (S : Store) (id : Nat) (p : JobPatch)
    (now : Nat) (x : Job) (h : S.getById id = some x) :
    (S.updateJob id p now).1 = some (applyPatch x p now) := by
  rw [updateJob_fst, h]
  rfl

theorem updateJob_notifications (S : Store) (id : Nat) (p : JobPatch)
    (now : Nat) :
    (S.updateJob id p now).2.notifications =
      (replaceFirst S.notifications id (fun j => applyPatch j p now)).2 := rfl

theorem markAttemptFailure_fallback (opts : ServiceOptions) (now : Nat)
    (job cur : Job) (provider : Provider) (attempt : Nat) (message : String)
    (S : Store)
    (hch : job.channel = .push)
    (hbt : jsTrim job.businessId = job.businessId) (hb0 : job.businessId ≠ "")
    (hmt : jsTrim job.message = job.message) (hm0 : job.message ≠ "")
    (hma : 1 ≤ job.maxAttempts) (hma10 : job.maxAttempts ≤ 10)
    (htgt : (readFallbackTargets job.metadata).emailAudience.isSome ∨
      (readFallbackTargets job.metadata).smsAudience.isSome)
    (hcur : S.getById job.id = some cur) :
    ∃ r S' newE,
      markAttemptFailure opts now job provider attempt message S =
        (.ok (.failed, r), S') ∧
      r.id = cur.id ∧ r.status = .failed ∧ r.failedAt = some now ∧
      r.attempts = cur.attempts ∧
      r.lastError = some ("Push delivery failed. Fallback queued: " ++
        String.intercalate ", " ((expectedFallbackChannels job).map channelUpper)) ∧
      S'.getById job.id = some r ∧
      S'.auditLogs = S.auditLogs ++ newE ∧
      (∃ e ∈ newE, e.event = .fallback_queued ∧ e.jobId = job.id ∧
        e.attempt = some attempt) ∧
      (∀ e ∈ newE, e.event ≠ .retry_scheduled ∧ e.event ≠ .failed_final) ∧
      (∀ x, (readFallbackTargets job.metadata).emailAudience = some x →
        ∃ fb, fb ∈ S'.notifications ∧ fb.channel = .email ∧ fb.audience = x ∧
          fb.message = job.message ∧ fb.maxAttempts = job.maxAttempts ∧
          fb.status = .queued ∧ fb.attempts = 0 ∧
          mget fb.metadata "source" = some (.str "push-fallback") ∧
          mget fb.metadata "fallbackFromJobId" = some (.num (Int.ofNat job.id))) ∧
      (∀ y, (readFallbackTargets job.metadata).smsAudience = some y →
        ∃ fb, fb ∈ S'.notifications ∧ fb.channel = .sms ∧ fb.audience = y ∧
          fb.message = job.message ∧ fb.maxAttempts = job.maxAttempts ∧
          fb.status = .queued ∧ fb.attempts = 0 ∧
          mget fb.metadata "source" = some (.str "push-fallback") ∧
          mget fb.metadata "fallbackFromJobId" = some (.num (Int.ofNat job.id))) := by
  rcases htE : (readFallbackTargets job.metadata).emailAudience with _ | a
  · rcases htS : (readFallbackTargets job.metadata).smsAudience with _ | b
    · rw [htE, htS] at htgt
      simp at htgt
    · -- sms target only
      have hcur1 : ((S.createAuditLog (attemptFailedParams job provider attempt message) now).2).getById job.id = some cur := by
        rw [getById_createAuditLog]
        exact hcur
      have hcurFB : ((((afterEnqueue opts now (fallbackInput job message now .sms b) .sms (S.createAuditLog (attemptFailedParams job provider attempt message) now).2)).createAuditLog (fallbackAuditParams job provider attempt message [(queuedJobOf opts now (fallbackInput job message now .sms b) .sms (S.createAuditLog (attemptFailedParams job provider attempt message) now).2)]) now).2).getById job.id = some cur := by
        rw [getById_createAuditLog]
        exact getById_afterEnqueue_of_some _ _ _ _ _ _ _ hcur1
      have hupd : (((((afterEnqueue opts now (fallbackInput job message now .sms b) .sms (S.createAuditLog (attemptFailedParams job provider attempt message) now).2)).createAuditLog (fallbackAuditParams job provider attempt message [(queuedJobOf opts now (fallbackInput job message now .sms b) .sms (S.createAuditLog (attemptFailedParams job provider attempt message) now).2)]) now).2).updateJob job.id { status := some .failed, provider := some (some provider.name), failedAt := some (some now), lastError := some (some (fallbackLastError [(queuedJobOf opts now (fallbackInput job message now .sms b) .sms (S.createAuditLog (attemptFailedParams job provider attempt message) now).2)])) } now).1 = some (applyPatch cur { status := some .failed, provider := some (some provider.name), failedAt := some (some now), lastError := some (some (fallbackLastError [(queuedJobOf opts now (fallbackInput job message now .sms b) .sms (S.createAuditLog (attemptFailedParams job provider attempt message) now).2)])) } now) :=
        updateJob_fst_of_getById _ _ _ _ cur hcurFB
      have hqpf := queuePushFallbackJobs_sms_only opts now job provider attempt message (S.createAuditLog (attemptFailedParams job provider attempt message) now).2 b hch htE htS hbt hb0 hmt hm0 hma hma10
      have hMAF : markAttemptFailure opts now job provider attempt message S = (.ok (.failed, (applyPatch cur { status := some .failed, provider := some (some provider.name), failedAt := some (some now), lastError := some (some (fallbackLastError [(queuedJobOf opts now (fallbackInput job message now .sms b) .sms (S.createAuditLog (attemptFailedParams job provider attempt message) now).2)])) } now)), (((((afterEnqueue opts now (fallbackInput job message now .sms b) .sms (S.createAuditLog (attemptFailedParams job provider attempt message) now).2)).createAuditLog (fallbackAuditParams job provider attempt message [(queuedJobOf opts now (fallbackInput job message now .sms b) .sms (S.createAuditLog (attemptFailedParams job provider attempt message) now).2)]) now).2).updateJob job.id { status := some .failed, provider := some (some provider.name), failedAt := some (some now), lastError := some (some (fallbackLastError [(queuedJobOf opts now (fallbackInput job message now .sms b) .sms (S.createAuditLog (attemptFailedParams job provider attempt message) now).2)])) } now).2) := by
        simp only [markAttemptFailure]
        rw [hqpf]
        dsimp only
        rw [if_pos (by simp)]
        rw [hupd]
      have hexp : expectedFallbackChannels job = [Channel.sms] := by
        simp [expectedFallbackChannels, htE, htS]
      have hnot : ((((afterEnqueue opts now (fallbackInput job message now .sms b) .sms (S.createAuditLog (attemptFailedParams job provider attempt message) now).2)).createAuditLog (fallbackAuditParams job provider attempt message [(queuedJobOf opts now (fallbackInput job message now .sms b) .sms (S.createAuditLog (attemptFailedParams job provider attempt message) now).2)]) now).2).notifications = S.notifications ++ [(queuedJobOf opts now (fallbackInput job message now .sms b) .sms (S.createAuditLog (attemptFailedParams job provider attempt message) now).2)] := by
        rw [createAuditLog_notifications, afterEnqueue_notifications, createAuditLog_notifications]
        try simp [List.append_assoc]
      obtain ⟨htrimS, hneS⟩ := readFallbackTargets_sms_trimmed job.metadata b htS
      have hfS := queuedJobOf_fallback_fields opts now job message .sms b (S.createAuditLog (attemptFailedParams job provider attempt message) now).2 hmt htrimS hneS hma
      refine ⟨(applyPatch cur { status := some .failed, provider := some (some provider.name), failedAt := some (some now), lastError := some (some (fallbackLastError [(queuedJobOf opts now (fallbackInput job message now .sms b) .sms (S.createAuditLog (attemptFailedParams job provider attempt message) now).2)])) } now), (((((afterEnqueue opts now (fallbackInput job message now .sms b) .sms (S.createAuditLog (attemptFailedParams job provider attempt message) now).2)).createAuditLog (fallbackAuditParams job provider attempt message [(queuedJobOf opts now (fallbackInput job message now .sms b) .sms (S.createAuditLog (attemptFailedParams job provider attempt message) now).2)]) now).2).updateJob job.id { status := some .failed, provider := some (some provider.name), failedAt := some (some now), lastError := some (some (fallbackLastError [(queuedJobOf opts now (fallbackInput job message now .sms b) .sms (S.createAuditLog (attemptFailedParams job provider attempt message) now).2)])) } now).2, [(S.createAuditLog (attemptFailedParams job provider attempt message) now).1, (queuedAuditOf opts now (fallbackInput job message now .sms b) .sms (S.createAuditLog (attemptFailedParams job provider attempt message) now).2), (((afterEnqueue opts now (fallbackInput job message now .sms b) .sms (S.createAuditLog (attemptFailedParams job provider attempt message) now).2)).createAuditLog (fallbackAuditParams job provider attempt message [(queuedJobOf opts now (fallbackInput job message now .sms b) .sms (S.createAuditLog (attemptFailedParams job provider attempt message) now).2)]) now).1], hMAF, rfl, rfl, rfl, rfl, ?_, ?_, ?_, ?_, ?_, ?_, ?_⟩
      · rw [hexp]
        rfl
      · rw [getById_updateJob_self, hcurFB]
        rfl
      · rw [updateJob_auditLogs]
        simp only [createAuditLog_auditLogs, afterEnqueue_auditLogs, List.append_assoc, List.singleton_append, List.cons_append, List.nil_append]
      · refine ⟨(((afterEnqueue opts now (fallbackInput job message now .sms b) .sms (S.createAuditLog (attemptFailedParams job provider attempt message) now).2)).createAuditLog (fallbackAuditParams job provider attempt message [(queuedJobOf opts now (fallbackInput job message now .sms b) .sms (S.createAuditLog (attemptFailedParams job provider attempt message) now).2)]) now).1, by simp, rfl, rfl, rfl⟩
      · intro e he
        simp only [List.mem_cons, List.not_mem_nil, or_false] at he
        rcases he with h | h | h <;> subst h <;> exact ⟨fun hcon => AuditEvent.noConfusion hcon, fun hcon => AuditEvent.noConfusion hcon⟩
      · intro x hx
        exact absurd hx (by simp)
      · intro y hy
        have hyb : b = y := Option.some.inj hy
        subst hyb
        refine ⟨(queuedJobOf opts now (fallbackInput job message now .sms b) .sms (S.createAuditLog (attemptFailedParams job provider attempt message) now).2), ?_, hfS.1, hfS.2.1, hfS.2.2.1, hfS.2.2.2.1, hfS.2.2.2.2.1, hfS.2.2.2.2.2.1, ?_, ?_⟩
        · rw [updateJob_notifications, hnot, replaceFirst_append_left S.notifications [(queuedJobOf opts now (fallbackInput job message now .sms b) .sms (S.createAuditLog (attemptFailedParams job provider attempt message) now).2)] job.id _ cur hcur]
          simp
        · rw [hfS.2.2.2.2.2.2]
          simp only [mget, JVal.get]
          rw [fallbackMetadata_get_source]
        · rw [hfS.2.2.2.2.2.2]
          simp only [mget, JVal.get]
          rw [fallbackMetadata_get_fromJobId]
  · rcases htS : (readFallbackTargets job.metadata).smsAudience with _ | b
    · -- email target only
      have hcur1 : ((S.createAuditLog (attemptFailedParams job provider attempt message) now).2).getById job.id = some cur := by
        rw [getById_createAuditLog]
        exact hcur
      have hcurFB : ((((afterEnqueue opts now (fallbackInput job message now .email a) .email (S.createAuditLog (attemptFailedParams job provider attempt message) now).2)).createAuditLog (fallbackAuditParams job provider attempt message [(queuedJobOf opts now (fallbackInput job message now .email a) .email (S.createAuditLog (attemptFailedParams job provider attempt message) now).2)]) now).2).getById job.id = some cur := by
        rw [getById_createAuditLog]
        exact getById_afterEnqueue_of_some _ _ _ _ _ _ _ hcur1
      have hupd : (((((afterEnqueue opts now (fallbackInput job message now .email a) .email (S.createAuditLog (attemptFailedParams job provider attempt message) now).2)).createAuditLog (fallbackAuditParams job provider attempt message [(queuedJobOf opts now (fallbackInput job message now .email a) .email (S.createAuditLog (attemptFailedParams job provider attempt message) now).2)]) now).2).updateJob job.id { status := some .failed, provider := some (some provider.name), failedAt := some (some now), lastError := some (some (fallbackLastError [(queuedJobOf opts now (fallbackInput job message now .email a) .email (S.createAuditLog (attemptFailedParams job provider attempt message) now).2)])) } now).1 = some (applyPatch cur { status := some .failed, provider := some (some provider.name), failedAt := some (some now), lastError := some (some (fallbackLastError [(queuedJobOf opts now (fallbackInput job message now .email a) .email (S.createAuditLog (attemptFailedParams job provider attempt message) now).2)])) } now) :=
        updateJob_fst_of_getById _ _ _ _ cur hcurFB
      have hqpf := queuePushFallbackJobs_email_only opts now job provider attempt message (S.createAuditLog (attemptFailedParams job provider attempt message) now).2 a hch htE htS hbt hb0 hmt hm0 hma hma10
      have hMAF : markAttemptFailure opts now job provider attempt message S = (.ok (.failed, (applyPatch cur { status := some .failed, provider := some (some provider.name), failedAt := some (some now), lastError := some (some (fallbackLastError [(queuedJobOf opts now (fallbackInput job message now .email a) .email (S.createAuditLog (attemptFailedParams job provider attempt message) now).2)])) } now)), (((((afterEnqueue opts now (fallbackInput job message now .email a) .email (S.createAuditLog (attemptFailedParams job provider attempt message) now).2)).createAuditLog (fallbackAuditParams job provider attempt message [(queuedJobOf opts now (fallbackInput job message now .email a) .email (S.createAuditLog (attemptFailedParams job provider attempt message) now).2)]) now).2).updateJob job.id { status := some .failed, provider := some (some provider.name), failedAt := some (some now), lastError := some (some (fallbackLastError [(queuedJobOf opts now (fallbackInput job message now .email a) .email (S.createAuditLog (attemptFailedParams job provider attempt message) now).2)])) } now).2) := by
        simp only [markAttemptFailure]
        rw [hqpf]
        dsimp only
        rw [if_pos (by simp)]
        rw [hupd]
      have hexp : expectedFallbackChannels job = [Channel.email] := by
        simp [expectedFallbackChannels, htE, htS]
      have hnot : ((((afterEnqueue opts now (fallbackInput job message now .email a) .email (S.createAuditLog (attemptFailedParams job provider attempt message) now).2)).createAuditLog (fallbackAuditParams job provider attempt message [(queuedJobOf opts now (fallbackInput job message now .email a) .email (S.createAuditLog (attemptFailedParams job provider attempt message) now).2)]) now).2).notifications = S.notifications ++ [(queuedJobOf opts now (fallbackInput job message now .email a) .email (S.createAuditLog (attemptFailedParams job provider attempt message) now).2)] := by
        rw [createAuditLog_notifications, afterEnqueue_notifications, createAuditLog_notifications]
        try simp [List.append_assoc]
      obtain ⟨htrimE, hneE⟩ := readFallbackTargets_email_trimmed job.metadata a htE
      have hfE := queuedJobOf_fallback_fields opts now job message .email a (S.createAuditLog (attemptFailedParams job provider attempt message) now).2 hmt htrimE hneE hma
      refine ⟨(applyPatch cur { status := some .failed, provider := some (some provider.name), failedAt := some (some now), lastError := some (some (fallbackLastError [(queuedJobOf opts now (fallbackInput job message now .email a) .email (S.createAuditLog (attemptFailedParams job provider attempt message) now).2)])) } now), (((((afterEnqueue opts now (fallbackInput job message now .email a) .email (S.createAuditLog (attemptFailedParams job provider attempt message) now).2)).createAuditLog (fallbackAuditParams job provider attempt message [(queuedJobOf opts now (fallbackInput job message now .email a) .email (S.createAuditLog (attemptFailedParams job provider attempt message) now).2)]) now).2).updateJob job.id { status := some .failed, provider := some (some provider.name), failedAt := some (some now), lastError := some (some (fallbackLastError [(queuedJobOf opts now (fallbackInput job message now .email a) .email (S.createAuditLog (attemptFailedParams job provider attempt message) now).2)])) } now).2, [(S.createAuditLog (attemptFailedParams job provider attempt message) now).1, (queuedAuditOf opts now (fallbackInput job message now .email a) .email (S.createAuditLog (attemptFailedParams job provider attempt message) now).2), (((afterEnqueue opts now (fallbackInput job message now .email a) .email (S.createAuditLog (attemptFailedParams job provider attempt message) now).2)).createAuditLog (fallbackAuditParams job provider attempt message [(queuedJobOf opts now (fallbackInput job message now .email a) .email (S.createAuditLog (attemptFailedParams job provider attempt message) now).2)]) now).1], hMAF, rfl, rfl, rfl, rfl, ?_, ?_, ?_, ?_, ?_, ?_, ?_⟩
      · rw [hexp]
        rfl
      · rw [getById_updateJob_self, hcurFB]
        rfl
      · rw [updateJob_auditLogs]
        simp only [createAuditLog_auditLogs, afterEnqueue_auditLogs, List.append_assoc, List.singleton_append, List.cons_append, List.nil_append]
      · refine ⟨(((afterEnqueue opts now (fallbackInput job message now .email a) .email (S.createAuditLog (attemptFailedParams job provider attempt message) now).2)).createAuditLog (fallbackAuditParams job provider attempt message [(queuedJobOf opts now (fallbackInput job message now .email a) .email (S.createAuditLog (attemptFailedParams job provider attempt message) now).2)]) now).1, by simp, rfl, rfl, rfl⟩
      · intro e he
        simp only [List.mem_cons, List.not_mem_nil, or_false] at he
        rcases he with h | h | h <;> subst h <;> exact ⟨fun hcon => AuditEvent.noConfusion hcon, fun hcon => AuditEvent.noConfusion hcon⟩
      · intro x hx
        have hxa : a = x := Option.some.inj hx
        subst hxa
        refine ⟨(queuedJobOf opts now (fallbackInput job message now .email a) .email (S.createAuditLog (attemptFailedParams job provider attempt message) now).2), ?_, hfE.1, hfE.2.1, hfE.2.2.1, hfE.2.2.2.1, hfE.2.2.2.2.1, hfE.2.2.2.2.2.1, ?_, ?_⟩
        · rw [updateJob_notifications, hnot, replaceFirst_append_left S.notifications [(queuedJobOf opts now (fallbackInput job message now .email a) .email (S.createAuditLog (attemptFailedParams job provider attempt message) now).2)] job.id _ cur hcur]
          simp
        · rw [hfE.2.2.2.2.2.2]
          simp only [mget, JVal.get]
          rw [fallbackMetadata_get_source]
        · rw [hfE.2.2.2.2.2.2]
          simp only [mget, JVal.get]
          rw [fallbackMetadata_get_fromJobId]
      · intro y hy
        exact absurd hy (by simp)
    · -- both targets
      have hcur1 : ((S.createAuditLog (attemptFailedParams job provider attempt message) now).2).getById job.id = some cur := by
        rw [getById_createAuditLog]
        exact hcur
      have hcurFB : ((((afterEnqueue opts now (fallbackInput job message now .sms b) .sms (afterEnqueue opts now (fallbackInput job message now .email a) .email (S.createAuditLog (attemptFailedParams job provider attempt message) now).2))).createAuditLog (fallbackAuditParams job provider attempt message [(queuedJobOf opts now (fallbackInput job message now .email a) .email (S.createAuditLog (attemptFailedParams job provider attempt message) now).2), (queuedJobOf opts now (fallbackInput job message now .sms b) .sms (afterEnqueue opts now (fallbackInput job message now .email a) .email (S.createAuditLog (attemptFailedParams job provider attempt message) now).2))]) now).2).getById job.id = some cur := by
        rw [getById_createAuditLog]
        exact getById_afterEnqueue_of_some _ _ _ _ _ _ _ (getById_afterEnqueue_of_some _ _ _ _ _ _ _ hcur1)
      have hupd : (((((afterEnqueue opts now (fallbackInput job message now .sms b) .sms (afterEnqueue opts now (fallbackInput job message now .email a) .email (S.createAuditLog (attemptFailedParams job provider attempt message) now).2))).createAuditLog (fallbackAuditParams job provider attempt message [(queuedJobOf opts now (fallbackInput job message now .email a) .email (S.createAuditLog (attemptFailedParams job provider attempt message) now).2), (queuedJobOf opts now (fallbackInput job message now .sms b) .sms (afterEnqueue opts now (fallbackInput job message now .email a) .email (S.createAuditLog (attemptFailedParams job provider attempt message) now).2))]) now).2).updateJob job.id { status := some .failed, provider := some (some provider.name), failedAt := some (some now), lastError := some (some (fallbackLastError [(queuedJobOf opts now (fallbackInput job message now .email a) .email (S.createAuditLog (attemptFailedParams job provider attempt message) now).2), (queuedJobOf opts now (fallbackInput job message now .sms b) .sms (afterEnqueue opts now (fallbackInput job message now .email a) .email (S.createAuditLog (attemptFailedParams job provider attempt message) now).2))])) } now).1 = some (applyPatch cur { status := some .failed, provider := some (some provider.name), failedAt := some (some now), lastError := some (some (fallbackLastError [(queuedJobOf opts now (fallbackInput job message now .email a) .email (S.createAuditLog (attemptFailedParams job provider attempt message) now).2), (queuedJobOf opts now (fallbackInput job message now .sms b) .sms (afterEnqueue opts now (fallbackInput job message now .email a) .email (S.createAuditLog (attemptFailedParams job provider attempt message) now).2))])) } now) :=
        updateJob_fst_of_getById _ _ _ _ cur hcurFB
      have hqpf := queuePushFallbackJobs_both opts now job provider attempt message (S.createAuditLog (attemptFailedParams job provider attempt message) now).2 a b hch htE htS hbt hb0 hmt hm0 hma hma10
      have hMAF : markAttemptFailure opts now job provider attempt message S = (.ok (.failed, (applyPatch cur { status := some .failed, provider := some (some provider.name), failedAt := some (some now), lastError := some (some (fallbackLastError [(queuedJobOf opts now (fallbackInput job message now .email a) .email (S.createAuditLog (attemptFailedParams job provider attempt message) now).2), (queuedJobOf opts now (fallbackInput job message now .sms b) .sms (afterEnqueue opts now (fallbackInput job message now .email a) .email (S.createAuditLog (attemptFailedParams job provider attempt message) now).2))])) } now)), (((((afterEnqueue opts now (fallbackInput job message now .sms b) .sms (afterEnqueue opts now (fallbackInput job message now .email a) .email (S.createAuditLog (attemptFailedParams job provider attempt message) now).2))).createAuditLog (fallbackAuditParams job provider attempt message [(queuedJobOf opts now (fallbackInput job message now .email a) .email (S.createAuditLog (attemptFailedParams job provider attempt message) now).2), (queuedJobOf opts now (fallbackInput job message now .sms b) .sms (afterEnqueue opts now (fallbackInput job message now .email a) .email (S.createAuditLog (attemptFailedParams job provider attempt message) now).2))]) now).2).updateJob job.id { status := some .failed, provider := some (some provider.name), failedAt := some (some now), lastError := some (some (fallbackLastError [(queuedJobOf opts now (fallbackInput job message now .email a) .email (S.createAuditLog (attemptFailedParams job provider attempt message) now).2), (queuedJobOf opts now (fallbackInput job message now .sms b) .sms (afterEnqueue opts now (fallbackInput job message now .email a) .email (S.createAuditLog (attemptFailedParams job provider attempt message) now).2))])) } now).2) := by
        simp only [markAttemptFailure]
        rw [hqpf]
        dsimp only
        rw [if_pos (by simp)]
        rw [hupd]
      have hexp : expectedFallbackChannels job = [Channel.email, Channel.sms] := by
        simp [expectedFallbackChannels, htE, htS]
      have hnot : ((((afterEnqueue opts now (fallbackInput job message now .sms b) .sms (afterEnqueue opts now (fallbackInput job message now .email a) .email (S.createAuditLog (attemptFailedParams job provider attempt message) now).2))).createAuditLog (fallbackAuditParams job provider attempt message [(queuedJobOf opts now (fallbackInput job message now .email a) .email (S.createAuditLog (attemptFailedParams job provider attempt message) now).2), (queuedJobOf opts now (fallbackInput job message now .sms b) .sms (afterEnqueue opts now (fallbackInput job message now .email a) .email (S.createAuditLog (attemptFailedParams job provider attempt message) now).2))]) now).2).notifications = S.notifications ++ [(queuedJobOf opts now (fallbackInput job message now .email a) .email (S.createAuditLog (attemptFailedParams job provider attempt message) now).2), (queuedJobOf opts now (fallbackInput job message now .sms b) .sms (afterEnqueue opts now (fallbackInput job message now .email a) .email (S.createAuditLog (attemptFailedParams job provider attempt message) now).2))] := by
        rw [createAuditLog_notifications, afterEnqueue_notifications, afterEnqueue_notifications, createAuditLog_notifications]
        try simp [List.append_assoc]
      obtain ⟨htrimE, hneE⟩ := readFallbackTargets_email_trimmed job.metadata a htE
      have hfE := queuedJobOf_fallback_fields opts now job message .email a (S.createAuditLog (attemptFailedParams job provider attempt message) now).2 hmt htrimE hneE hma
      obtain ⟨htrimS, hneS⟩ := readFallbackTargets_sms_trimmed job.metadata b htS
      have hfS := queuedJobOf_fallback_fields opts now job message .sms b (afterEnqueue opts now (fallbackInput job message now .email a) .email (S.createAuditLog (attemptFailedParams job provider attempt message) now).2) hmt htrimS hneS hma
      refine ⟨(applyPatch cur { status := some .failed, provider := some (some provider.name), failedAt := some (some now), lastError := some (some (fallbackLastError [(queuedJobOf opts now (fallbackInput job message now .email a) .email (S.createAuditLog (attemptFailedParams job provider attempt message) now).2), (queuedJobOf opts now (fallbackInput job message now .sms b) .sms (afterEnqueue opts now (fallbackInput job message now .email a) .email (S.createAuditLog (attemptFailedParams job provider attempt message) now).2))])) } now), (((((afterEnqueue opts now (fallbackInput job message now .sms b) .sms (afterEnqueue opts now (fallbackInput job message now .email a) .email (S.createAuditLog (attemptFailedParams job provider attempt message) now).2))).createAuditLog (fallbackAuditParams job provider attempt message [(queuedJobOf opts now (fallbackInput job message now .email a) .email (S.createAuditLog (attemptFailedParams job provider attempt message) now).2), (queuedJobOf opts now (fallbackInput job message now .sms b) .sms (afterEnqueue opts now (fallbackInput job message now .email a) .email (S.createAuditLog (attemptFailedParams job provider attempt message) now).2))]) now).2).updateJob job.id { status := some .failed, provider := some (some provider.name), failedAt := some (some now), lastError := some (some (fallbackLastError [(queuedJobOf opts now (fallbackInput job message now .email a) .email (S.createAuditLog (attemptFailedParams job provider attempt message) now).2), (queuedJobOf opts now (fallbackInput job message now .sms b) .sms (afterEnqueue opts now (fallbackInput job message now .email a) .email (S.createAuditLog (attemptFailedParams job provider attempt message) now).2))])) } now).2, [(S.createAuditLog (attemptFailedParams job provider attempt message) now).1, (queuedAuditOf opts now (fallbackInput job message now .email a) .email (S.createAuditLog (attemptFailedParams job provider attempt message) now).2), (queuedAuditOf opts now (fallbackInput job message now .sms b) .sms (afterEnqueue opts now (fallbackInput job message now .email a) .email (S.createAuditLog (attemptFailedParams job provider attempt message) now).2)), (((afterEnqueue opts now (fallbackInput job message now .sms b) .sms (afterEnqueue opts now (fallbackInput job message now .email a) .email (S.createAuditLog (attemptFailedParams job provider attempt message) now).2))).createAuditLog (fallbackAuditParams job provider attempt message [(queuedJobOf opts now (fallbackInput job message now .email a) .email (S.createAuditLog (attemptFailedParams job provider attempt message) now).2), (queuedJobOf opts now (fallbackInput job message now .sms b) .sms (afterEnqueue opts now (fallbackInput job message now .email a) .email (S.createAuditLog (attemptFailedParams job provider attempt message) now).2))]) now).1], hMAF, rfl, rfl, rfl, rfl, ?_, ?_, ?_, ?_, ?_, ?_, ?_⟩
      · rw [hexp]
        rfl
      · rw [getById_updateJob_self, hcurFB]
        rfl
      · rw [updateJob_auditLogs]
        simp only [createAuditLog_auditLogs, afterEnqueue_auditLogs, List.append_assoc, List.singleton_append, List.cons_append, List.nil_append]
      · refine ⟨(((afterEnqueue opts now (fallbackInput job message now .sms b) .sms (afterEnqueue opts now (fallbackInput job message now .email a) .email (S.createAuditLog (attemptFailedParams job provider attempt message) now).2))).createAuditLog (fallbackAuditParams job provider attempt message [(queuedJobOf opts now (fallbackInput job message now .email a) .email (S.createAuditLog (attemptFailedParams job provider attempt message) now).2), (queuedJobOf opts now (fallbackInput job message now .sms b) .sms (afterEnqueue opts now (fallbackInput job message now .email a) .email (S.createAuditLog (attemptFailedParams job provider attempt message) now).2))]) now).1, by simp, rfl, rfl, rfl⟩
      · intro e he
        simp only [List.mem_cons, List.not_mem_nil, or_false] at he
        rcases he with h | h | h | h <;> subst h <;> exact ⟨fun hcon => AuditEvent.noConfusion hcon, fun hcon => AuditEvent.noConfusion hcon⟩
      · intro x hx
        have hxa : a = x := Option.some.inj hx
        subst hxa
        refine ⟨(queuedJobOf opts now (fallbackInput job message now .email a) .email (S.createAuditLog (attemptFailedParams job provider attempt message) now).2), ?_, hfE.1, hfE.2.1, hfE.2.2.1, hfE.2.2.2.1, hfE.2.2.2.2.1, hfE.2.2.2.2.2.1, ?_, ?_⟩
        · rw [updateJob_notifications, hnot, replaceFirst_append_left S.notifications [(queuedJobOf opts now (fallbackInput job message now .email a) .email (S.createAuditLog (attemptFailedParams job provider attempt message) now).2), (queuedJobOf opts now (fallbackInput job message now .sms b) .sms (afterEnqueue opts now (fallbackInput job message now .email a) .email (S.createAuditLog (attemptFailedParams job provider attempt message) now).2))] job.id _ cur hcur]
          simp
        · rw [hfE.2.2.2.2.2.2]
          simp only [mget, JVal.get]
          rw [fallbackMetadata_get_source]
        · rw [hfE.2.2.2.2.2.2]
          simp only [mget, JVal.get]
          rw [fallbackMetadata_get_fromJobId]
      · intro y hy
        have hyb : b = y := Option.some.inj hy
        subst hyb
        refine ⟨(queuedJobOf opts now (fallbackInput job message now .sms b) .sms (afterEnqueue opts now (fallbackInput job message now .email a) .email (S.createAuditLog (attemptFailedParams job provider attempt message) now).2)), ?_, hfS.1, hfS.2.1, hfS.2.2.1, hfS.2.2.2.1, hfS.2.2.2.2.1, hfS.2.2.2.2.2.1, ?_, ?_⟩
        · rw [updateJob_notifications, hnot, replaceFirst_append_left S.notifications [(queuedJobOf opts now (fallbackInput job message now .email a) .email (S.createAuditLog (attemptFailedParams job provider attempt message) now).2), (queuedJobOf opts now (fallbackInput job message now .sms b) .sms (afterEnqueue opts now (fallbackInput job message now .email a) .email (S.createAuditLog (attemptFailedParams job provider attempt message) now).2))] job.id _ cur hcur]
          simp
        · rw [hfS.2.2.2.2.2.2]
          simp only [mget, JVal.get]
          rw [fallbackMetadata_get_source]
        · rw [hfS.2.2.2.2.2.2]
          simp only [mget, JVal.get]
          rw [fallbackMetadata_get_fromJobId]

/-! ### Claim C1: the push fallback path in processJob -/

/-- C1: for a push job with at least one non-empty fallback audience, a
failed dispatch attempt (provider rejection or thrown error) enqueues one
fresh `queued` job per non-empty target — same message and `maxAttempts`,
metadata tagged `source = "push-fallback"` and `fallbackFromJobId` equal
to the push job's id — appends a `fallback_queued` audit entry on the
original job, marks the original job `failed` with `failedAt` set and
`lastError = "Push delivery failed. Fallback queued: <CHANNELS>"`, and
returns outcome `failed`; no budget hypothesis is required (the
attempt-budget check is bypassed) and no `retry_scheduled` or
`failed_final` entry is written for the attempt. -/
theorem C1_push_fallback (opts : ServiceOptions) (now : Nat) (jid : Nat)
    (S : Store) (job : Job)
    (hfind : S.getById jid = some job)
    (hch : job.channel = .push)
    (hbt : jsTrim job.businessId = job.businessId) (hb0 : job.businessId ≠ "")
    (hmt : jsTrim job.message = job.message) (hm0 : job.message ≠ "")
    (hma : 1 ≤ job.maxAttempts) (hma10 : job.maxAttempts ≤ 10)
    (htgt : (readFallbackTargets job.metadata).emailAudience.isSome ∨
      (readFallbackTargets job.metadata).smsAudience.isSome)
    (hfail : (∃ msg, (opts.providers job.channel).send
        (buildDispatchInput job (job.attempts + 1)) = .error msg) ∨
      (∃ pr, (opts.providers job.channel).send
        (buildDispatchInput job (job.attempts + 1)) = .ok pr ∧
        pr.accepted = false)) :
    ∃ r S' newE,
      processJob opts now jid S = (.ok (.failed, r), S') ∧
      r.id = job.id ∧ r.status = .failed ∧ r.failedAt = some now ∧
      r.attempts = job.attempts + 1 ∧
      r.lastError = some ("Push delivery failed. Fallback queued: " ++
        String.intercalate ", " ((expectedFallbackChannels job).map channelUpper)) ∧
      S'.getById jid = some r ∧
      S'.auditLogs = S.auditLogs ++ newE ∧
      (∃ e ∈ newE, e.event = .fallback_queued ∧ e.jobId = job.id ∧
        e.attempt = some (job.attempts + 1)) ∧
      (∀ e ∈ newE, e.event ≠ .retry_scheduled ∧ e.event ≠ .failed_final) ∧
      (∀ x, (readFallbackTargets job.metadata).emailAudience = some x →
        ∃ fb, fb ∈ S'.notifications ∧ fb.channel = .email ∧ fb.audience = x ∧
          fb.message = job.message ∧ fb.maxAttempts = job.maxAttempts ∧
          fb.status = .queued ∧ fb.attempts = 0 ∧
          mget fb.metadata "source" = some (.str "push-fallback") ∧
          mget fb.metadata "fallbackFromJobId" = some (.num (Int.ofNat job.id))) ∧
      (∀ y, (readFallbackTargets job.metadata).smsAudience = some y →
        ∃ fb, fb ∈ S'.notifications ∧ fb.channel = .sms ∧ fb.audience = y ∧
          fb.message = job.message ∧ fb.maxAttempts = job.maxAttempts ∧
          fb.status = .queued ∧ fb.attempts = 0 ∧
          mget fb.metadata "source" = some (.str "push-fallback") ∧
          mget fb.metadata "fallbackFromJobId" = some (.num (Int.ofNat job.id))) := by
  have hid : job.id = jid := getById_some_id S jid job hfind
  have hfind' : S.getById job.id = some job := by rw [hid]; exact hfind
  have hupd1 : (S.updateJob job.id { status := some .processing, provider := some (some (opts.providers job.channel).name), attempts := some (job.attempts + 1), lastAttemptAt := some (some now), lastError := some none } now).1 = some (applyPatch job { status := some .processing, provider := some (some (opts.providers job.channel).name), attempts := some (job.attempts + 1), lastAttemptAt := some (some now), lastError := some none } now) :=
    updateJob_fst_of_getById _ _ _ _ job hfind'
  have hcurB : ((((S.updateJob job.id { status := some .processing, provider := some (some (opts.providers job.channel).name), attempts := some (job.attempts + 1), lastAttemptAt := some (some now), lastError := some none } now).2).createAuditLog { jobId := job.id, event := .attempt_started, channel := job.channel, provider := some (opts.providers job.channel).name, attempt := some (job.attempts + 1), message := "Dispatch attempt started", detail := some (.obj [("audience", .str job.audience)]) } now).2).getById job.id = some (applyPatch job { status := some .processing, provider := some (some (opts.providers job.channel).name), attempts := some (job.attempts + 1), lastAttemptAt := some (some now), lastError := some none } now) := by
    rw [getById_createAuditLog, getById_updateJob_self, hfind']
    rfl
  rcases hfail with ⟨msg, hsend⟩ | ⟨pr, hsend, hacc⟩
  · -- provider threw
    have hmaf := markAttemptFailure_fallback opts now job (applyPatch job { status := some .processing, provider := some (some (opts.providers job.channel).name), attempts := some (job.attempts + 1), lastAttemptAt := some (some now), lastError := some none } now)
      (opts.providers job.channel) (job.attempts + 1) (msg) (((S.updateJob job.id { status := some .processing, provider := some (some (opts.providers job.channel).name), attempts := some (job.attempts + 1), lastAttemptAt := some (some now), lastError := some none } now).2).createAuditLog { jobId := job.id, event := .attempt_started, channel := job.channel, provider := some (opts.providers job.channel).name, attempt := some (job.attempts + 1), message := "Dispatch attempt started", detail := some (.obj [("audience", .str job.audience)]) } now).2
      hch hbt hb0 hmt hm0 hma hma10 htgt hcurB
    obtain ⟨r, S2, newE, heq, hid2, hstat, hfat, hatt, hlast, hget, haud,
      hfbent, hnofail, hemail, hsms⟩ := hmaf
    have hPJ : processJob opts now jid S =
        markAttemptFailure opts now job (opts.providers job.channel)
          (job.attempts + 1) (msg) (((S.updateJob job.id { status := some .processing, provider := some (some (opts.providers job.channel).name), attempts := some (job.attempts + 1), lastAttemptAt := some (some now), lastError := some none } now).2).createAuditLog { jobId := job.id, event := .attempt_started, channel := job.channel, provider := some (opts.providers job.channel).name, attempt := some (job.attempts + 1), message := "Dispatch attempt started", detail := some (.obj [("audience", .str job.audience)]) } now).2 := by
      simp only [processJob]
      rw [hfind]
      dsimp only
      rw [hupd1]
      dsimp only
      rw [hsend]
    refine ⟨r, S2, (((S.updateJob job.id { status := some .processing, provider := some (some (opts.providers job.channel).name), attempts := some (job.attempts + 1), lastAttemptAt := some (some now), lastError := some none } now).2).createAuditLog { jobId := job.id, event := .attempt_started, channel := job.channel, provider := some (opts.providers job.channel).name, attempt := some (job.attempts + 1), message := "Dispatch attempt started", detail := some (.obj [("audience", .str job.audience)]) } now).1 :: newE, ?_, ?_, hstat, hfat, ?_, hlast, ?_, ?_, ?_, ?_,
      hemail, hsms⟩
    · rw [hPJ]
      exact heq
    · rw [hid2]
      rfl
    · rw [hatt]
      rfl
    · rw [← hid]
      exact hget
    · rw [haud]
      have hSB : ((((S.updateJob job.id { status := some .processing, provider := some (some (opts.providers job.channel).name), attempts := some (job.attempts + 1), lastAttemptAt := some (some now), lastError := some none } now).2).createAuditLog { jobId := job.id, event := .attempt_started, channel := job.channel, provider := some (opts.providers job.channel).name, attempt := some (job.attempts + 1), message := "Dispatch attempt started", detail := some (.obj [("audience", .str job.audience)]) } now).2).auditLogs = S.auditLogs ++ [(((S.updateJob job.id { status := some .processing, provider := some (some (opts.providers job.channel).name), attempts := some (job.attempts + 1), lastAttemptAt := some (some now), lastError := some none } now).2).createAuditLog { jobId := job.id, event := .attempt_started, channel := job.channel, provider := some (opts.providers job.channel).name, attempt := some (job.attempts + 1), message := "Dispatch attempt started", detail := some (.obj [("audience", .str job.audience)]) } now).1] := by
        rw [createAuditLog_auditLogs, updateJob_auditLogs]
      rw [hSB, List.append_assoc, List.singleton_append]
    · obtain ⟨e, hmem, hprops⟩ := hfbent
      exact ⟨e, List.mem_cons_of_mem _ hmem, hprops⟩
    · intro e he
      rcases List.mem_cons.mp he with h | h
      · subst h
        exact ⟨fun hcon => AuditEvent.noConfusion hcon,
          fun hcon => AuditEvent.noConfusion hcon⟩
      · exact hnofail e h
  · -- provider rejected (accepted = false)
    have hmaf := markAttemptFailure_fallback opts now job (applyPatch job { status := some .processing, provider := some (some (opts.providers job.channel).name), attempts := some (job.attempts + 1), lastAttemptAt := some (some now), lastError := some none } now)
      (opts.providers job.channel) (job.attempts + 1) (pr.detail.getD ((opts.providers job.channel).name ++ " rejected notification dispatch")) (((S.updateJob job.id { status := some .processing, provider := some (some (opts.providers job.channel).name), attempts := some (job.attempts + 1), lastAttemptAt := some (some now), lastError := some none } now).2).createAuditLog { jobId := job.id, event := .attempt_started, channel := job.channel, provider := some (opts.providers job.channel).name, attempt := some (job.attempts + 1), message := "Dispatch attempt started", detail := some (.obj [("audience", .str job.audience)]) } now).2
      hch hbt hb0 hmt hm0 hma hma10 htgt hcurB
    obtain ⟨r, S2, newE, heq, hid2, hstat, hfat, hatt, hlast, hget, haud,
      hfbent, hnofail, hemail, hsms⟩ := hmaf
    have hPJ : processJob opts now jid S =
        markAttemptFailure opts now job (opts.providers job.channel)
          (job.attempts + 1) (pr.detail.getD ((opts.providers job.channel).name ++ " rejected notification dispatch")) (((S.updateJob job.id { status := some .processing, provider := some (some (opts.providers job.channel).name), attempts := some (job.attempts + 1), lastAttemptAt := some (some now), lastError := some none } now).2).createAuditLog { jobId := job.id, event := .attempt_started, channel := job.channel, provider := some (opts.providers job.channel).name, attempt := some (job.attempts + 1), message := "Dispatch attempt started", detail := some (.obj [("audience", .str job.audience)]) } now).2 := by
      simp only [processJob]
      rw [hfind]
      dsimp only
      rw [hupd1]
      dsimp only
      rw [hsend]
      dsimp only
      rw [if_neg (by simp [hacc])]
    refine ⟨r, S2, (((S.updateJob job.id { status := some .processing, provider := some (some (opts.providers job.channel).name), attempts := some (job.attempts + 1), lastAttemptAt := some (some now), lastError := some none } now).2).createAuditLog { jobId := job.id, event := .attempt_started, channel := job.channel, provider := some (opts.providers job.channel).name, attempt := some (job.attempts + 1), message := "Dispatch attempt started", detail := some (.obj [("audience", .str job.audience)]) } now).1 :: newE, ?_, ?_, hstat, hfat, ?_, hlast, ?_, ?_, ?_, ?_,
      hemail, hsms⟩
    · rw [hPJ]
      exact heq
    · rw [hid2]
      rfl
    · rw [hatt]
      rfl
    · rw [← hid]
      exact hget
    · rw [haud]
      have hSB : ((((S.updateJob job.id { status := some .processing, provider := some (some (opts.providers job.channel).name), attempts := some (job.attempts + 1), lastAttemptAt := some (some now), lastError := some none } now).2).createAuditLog { jobId := job.id, event := .attempt_started, channel := job.channel, provider := some (opts.providers job.channel).name, attempt := some (job.attempts + 1), message := "Dispatch attempt started", detail := some (.obj [("audience", .str job.audience)]) } now).2).auditLogs = S.auditLogs ++ [(((S.updateJob job.id { status := some .processing, provider := some (some (opts.providers job.channel).name), attempts := some (job.attempts + 1), lastAttemptAt := some (some now), lastError := some none } now).2).createAuditLog { jobId := job.id, event := .attempt_started, channel := job.channel, provider := some (opts.providers job.channel).name, attempt := some (job.attempts + 1), message := "Dispatch attempt started", detail := some (.obj [("audience", .str job.audience)]) } now).1] := by
        rw [createAuditLog_auditLogs, updateJob_auditLogs]
      rw [hSB, List.append_assoc, List.singleton_append]
    · obtain ⟨e, hmem, hprops⟩ := hfbent
      exact ⟨e, List.mem_cons_of_mem _ hmem, hprops⟩
    · intro e he
      rcases List.mem_cons.mp he with h | h
      · subst h
        exact ⟨fun hcon => AuditEvent.noConfusion hcon,
          fun hcon => AuditEvent.noConfusion hcon⟩
      · exact hnofail e h

/-! ### The store invariant -/

/-- The well-formedness every job put into the store by the engine
enjoys: a respected attempt budget in `[1,10]`, trimmed non-empty
`businessId` and `message`, and the sent-timestamp discipline. -/
def GoodJob (j : Job) : Prop :=
  j.attempts ≤ j.maxAttempts ∧ 1 ≤ j.maxAttempts ∧ j.maxAttempts ≤ 10 ∧
  jsTrim j.businessId = j.businessId ∧ j.businessId ≠ "" ∧
  jsTrim j.message = j.message ∧ j.message ≠ "" ∧
  (j.status = .sent → j.sentAt.isSome = true ∧ j.failedAt = none)

/-- The store invariant: ids are fresh and unique, and every job is
well-formed. -/
structure Inv (S : Store) : Prop where
  idBound : ∀ j ∈ S.notifications, j.id < S.nextId
  idNodup : (S.notifications.map Job.id).Nodup
  good : ∀ j ∈ S.notifications, GoodJob j

theorem inv_emptyStore : Inv emptyStore := by
  constructor <;> intros <;> simp_all [emptyStore]

theorem mem_of_getById (S : Store) (i : Nat) (j : Job)
    (h : S.getById i = some j) : j ∈ S.notifications :=
  List.mem_of_find?_eq_some h

theorem getById_of_mem (S : Store) (j : Job) (hInv : Inv S)
    (hmem : j ∈ S.notifications) : S.getById j.id = some j := by
  have hsome : (S.notifications.find? (fun x => x.id == j.id)).isSome := by
    rw [List.find?_isSome]
    exact ⟨j, hmem, by simp⟩
  obtain ⟨x, hx⟩ := Option.isSome_iff_exists.mp hsome
  have hxmem : x ∈ S.notifications := List.mem_of_find?_eq_some hx
  have hxid : x.id = j.id := by simpa using List.find?_some hx
  have hxj : x = j :=
    List.inj_on_of_nodup_map hInv.idNodup hxmem hmem hxid
  exact hxj ▸ hx

theorem mem_eq_of_getById (S : Store) (i : Nat) (j x : Job) (hInv : Inv S)
    (hfind : S.getById i = some j) (hmem : x ∈ S.notifications)
    (hid : x.id = i) : x = j := by
  have hjmem : j ∈ S.notifications := mem_of_getById S i j hfind
  have hjid : j.id = i := getById_some_id S i j hfind
  exact List.inj_on_of_nodup_map hInv.idNodup hmem hjmem (by rw [hid, hjid])

theorem inv_createAuditLog (S : Store) (p : CreateAuditParams) (now : Nat)
    (hInv : Inv S) : Inv (S.createAuditLog p now).2 := by
  constructor
  · intro j hj
    exact hInv.idBound j hj
  · exact hInv.idNodup
  · intro j hj
    exact hInv.good j hj

theorem inv_updateJob (S : Store) (id : Nat) (p : JobPatch) (now : Nat)
    (job : Job) (hInv : Inv S) (hfind : S.getById id = some job)
    (hgood : GoodJob (applyPatch job p now)) :
    Inv (S.updateJob id p now).2 := by
  constructor
  · intro x hx
    rw [updateJob_notifications] at hx
    rw [updateJob_nextId]
    rcases mem_replaceFirst_snd S.notifications id _ hx with h | ⟨j, hj, hjid, hxeq⟩
    · exact hInv.idBound x h
    · subst hxeq
      rw [applyPatch_id]
      exact hInv.idBound j hj
  · rw [updateJob_map_id]
    exact hInv.idNodup
  · intro x hx
    rw [updateJob_notifications] at hx
    rcases mem_replaceFirst_snd S.notifications id _ hx with h | ⟨j, hj, hjid, hxeq⟩
    · exact hInv.good x h
    · have hjj : j = job := mem_eq_of_getById S id job j hInv hfind hj hjid
      subst hjj
      subst hxeq
      exact hgood

theorem inv_afterEnqueue (opts : ServiceOptions) (now : Nat)
    (input : QueueInput) (ch : Channel) (T : Store) (hInv : Inv T)
    (hgood : GoodJob (queuedJobOf opts now input ch T)) :
    Inv (afterEnqueue opts now input ch T) := by
  constructor
  · intro j hj
    rw [afterEnqueue_notifications] at hj
    show j.id < T.nextId + 1
    rcases List.mem_append.mp hj with h | h
    · exact Nat.lt_succ_of_lt (hInv.idBound j h)
    · rw [List.mem_singleton.mp h]
      exact Nat.lt_succ_self _
  · show ((T.notifications ++ [queuedJobOf opts now input ch T]).map Job.id).Nodup
    rw [List.map_append, List.nodup_append]
    refine ⟨hInv.idNodup, List.nodup_singleton _, ?_⟩
    intro i hi hi2
    simp only [List.map_cons, List.map_nil, List.mem_singleton] at hi2
    obtain ⟨j, hj, hij⟩ := List.mem_map.mp hi
    have hlt := hInv.idBound j hj
    rw [hij] at hlt
    have hqid : (queuedJobOf opts now input ch T).id = T.nextId := rfl
    rw [hqid] at hi2
    omega
  · intro j hj
    rw [afterEnqueue_notifications] at hj
    rcases List.mem_append.mp hj with h | h
    · exact hInv.good j h
    · rw [List.mem_singleton.mp h]
      exact hgood

theorem goodJob_queuedJobOf (opts : ServiceOptions) (now : Nat)
    (input : QueueInput) (ch : Channel) (S : Store)
    (hval : ¬ (jsTrim input.businessId = "" ∨ jsTrim input.message = ""))
    (hrange : ¬ (resolveMaxAttempts opts input.maxAttempts < 1 ∨
      10 < resolveMaxAttempts opts input.maxAttempts)) :
    GoodJob (queuedJobOf opts now input ch S) := by
  push_neg at hval hrange
  refine ⟨Nat.zero_le _, ?_, ?_, ?_, ?_, ?_, ?_, ?_⟩
  · show 1 ≤ (resolveMaxAttempts opts input.maxAttempts).toNat
    omega
  · show (resolveMaxAttempts opts input.maxAttempts).toNat ≤ 10
    omega
  · show jsTrim (jsTrim input.businessId) = jsTrim input.businessId
    exact jsTrim_idem input.businessId
  · exact hval.1
  · show jsTrim (jsTrim input.message) = jsTrim input.message
    exact jsTrim_idem input.message
  · exact hval.2
  · intro h
    exact absurd h (by simp [queuedJobOf])

theorem queueNotification_effects (opts : ServiceOptions) (now : Nat)
    (input : QueueInput) (S : Store) (hInv : Inv S) :
    Inv (queueNotification opts now input S).2 ∧
    S.nextId ≤ (queueNotification opts now input S).2.nextId ∧
    (∀ i x, S.getById i = some x →
      (queueNotification opts now input S).2.getById i = some x) := by
  by_cases hval : jsTrim input.businessId = "" ∨ jsTrim input.message = ""
  · rw [queueNotification_err_val opts now input S hval]
    exact ⟨hInv, le_refl _, fun i x h => h⟩
  · cases hch : parseChannel (jsToLower (jsTrim input.channel)) with
    | none =>
      rw [queueNotification_err_channel opts now input S hval hch]
      exact ⟨hInv, le_refl _, fun i x h => h⟩
    | some ch =>
      by_cases hrange : resolveMaxAttempts opts input.maxAttempts < 1 ∨
          10 < resolveMaxAttempts opts input.maxAttempts
      · rw [queueNotification_err_range opts now input S ch hval hch hrange]
        exact ⟨hInv, le_refl _, fun i x h => h⟩
      · by_cases harr : isArr input.metadata = true
        · rw [queueNotification_err_arr opts now input S ch hval hch hrange harr]
          exact ⟨hInv, le_refl _, fun i x h => h⟩
        · rw [queueNotification_ok opts now input S ch hval hch hrange harr]
          refine ⟨inv_afterEnqueue opts now input ch S hInv
            (goodJob_queuedJobOf opts now input ch S hval hrange), ?_, ?_⟩
          · show S.nextId ≤ S.nextId + 1
            exact Nat.le_succ S.nextId
          · intro i x h
            exact getById_afterEnqueue_of_some opts now input ch S i x h

theorem goodJob_fallback_queuedJobOf (opts : ServiceOptions) (now : Nat)
    (job : Job) (err : String) (ch : Channel) (aud : String) (T : Store)
    (hbt : jsTrim job.businessId = job.businessId) (hb0 : job.businessId ≠ "")
    (hmt : jsTrim job.message = job.message) (hm0 : job.message ≠ "")
    (hma : 1 ≤ job.maxAttempts) (hma10 : job.maxAttempts ≤ 10) :
    GoodJob (queuedJobOf opts now (fallbackInput job err now ch aud) ch T) :=
  goodJob_queuedJobOf opts now (fallbackInput job err now ch aud) ch T
    (fallbackInput_hval job err now ch aud hbt hb0 hmt hm0)
    (fallbackInput_hrange opts job err now ch aud hma hma10)

theorem queuePushFallbackJobs_effects (opts : ServiceOptions) (now : Nat)
    (job : Job) (provider : Provider) (attempt : Nat) (msg : String)
    (T : Store) (hInv : Inv T)
    (hbt : jsTrim job.businessId = job.businessId) (hb0 : job.businessId ≠ "")
    (hmt : jsTrim job.message = job.message) (hm0 : job.message ≠ "")
    (hma : 1 ≤ job.maxAttempts) (hma10 : job.maxAttempts ≤ 10) :
    ∃ queued skipped T',
      queuePushFallbackJobs opts now job provider attempt msg T =
        (.ok (queued, skipped), T') ∧
      Inv T' ∧ T.nextId ≤ T'.nextId ∧
      (∀ i x, T.getById i = some x → T'.getById i = some x) := by
  by_cases hch : job.channel = .push
  · rcases htE : (readFallbackTargets job.metadata).emailAudience with _ | a
    · rcases htS : (readFallbackTargets job.metadata).smsAudience with _ | b
      · have htt : readFallbackTargets job.metadata = ⟨none, none⟩ := by
          have heta : readFallbackTargets job.metadata =
              ⟨(readFallbackTargets job.metadata).emailAudience,
               (readFallbackTargets job.metadata).smsAudience⟩ := rfl
          rw [heta, htE, htS]
        refine ⟨_, _, _,
          queuePushFallbackJobs_no_targets opts now job provider attempt msg T
            (Or.inr htt), hInv, le_refl _, fun i x h => h⟩
      · refine ⟨_, _, _,
          queuePushFallbackJobs_sms_only opts now job provider attempt msg T b
            hch htE htS hbt hb0 hmt hm0 hma hma10, ?_, ?_, ?_⟩
        · exact inv_createAuditLog _ _ _
            (inv_afterEnqueue _ _ _ _ _ hInv
              (goodJob_fallback_queuedJobOf opts now job msg .sms b T
                hbt hb0 hmt hm0 hma hma10))
        · show T.nextId ≤ T.nextId + 1
          exact Nat.le_succ T.nextId
        · intro i x h
          rw [getById_createAuditLog]
          exact getById_afterEnqueue_of_some _ _ _ _ _ _ _ h
    · rcases htS : (readFallbackTargets job.metadata).smsAudience with _ | b
      · refine ⟨_, _, _,
          queuePushFallbackJobs_email_only opts now job provider attempt msg T a
            hch htE htS hbt hb0 hmt hm0 hma hma10, ?_, ?_, ?_⟩
        · exact inv_createAuditLog _ _ _
            (inv_afterEnqueue _ _ _ _ _ hInv
              (goodJob_fallback_queuedJobOf opts now job msg .email a T
                hbt hb0 hmt hm0 hma hma10))
        · show T.nextId ≤ T.nextId + 1
          exact Nat.le_succ T.nextId
        · intro i x h
          rw [getById_createAuditLog]
          exact getById_afterEnqueue_of_some _ _ _ _ _ _ _ h
      · refine ⟨_, _, _,
          queuePushFallbackJobs_both opts now job provider attempt msg T a b
            hch htE htS hbt hb0 hmt hm0 hma hma10, ?_, ?_, ?_⟩
        · refine inv_createAuditLog _ _ _ (inv_afterEnqueue _ _ _ _ _ ?_ ?_)
          · exact inv_afterEnqueue _ _ _ _ _ hInv
              (goodJob_fallback_queuedJobOf opts now job msg .email a T
                hbt hb0 hmt hm0 hma hma10)
          · exact goodJob_fallback_queuedJobOf opts now job msg .sms b _
              hbt hb0 hmt hm0 hma hma10
        · show T.nextId ≤ T.nextId + 1 + 1
          omega
        · intro i x h
          rw [getById_createAuditLog]
          exact getById_afterEnqueue_of_some _ _ _ _ _ _ _
            (getById_afterEnqueue_of_some _ _ _ _ _ _ _ h)
  · refine ⟨[], [], T, ?_, hInv, le_refl _, fun i x h => h⟩
    simp only [queuePushFallbackJobs]
    rw [if_pos (by simp [hch])]

theorem goodJob_applyPatch_failed (c : Job) (pname : String) (le : String)
    (now : Nat) (hg : GoodJob c) :
    GoodJob (applyPatch c
      { status := some .failed, provider := some (some pname),
        failedAt := some (some now), lastError := some (some le) } now) := by
  obtain ⟨h1, h2, h3, h4, h5, h6, h7, h8⟩ := hg
  exact ⟨h1, h2, h3, h4, h5, h6, h7, fun hs => Status.noConfusion hs⟩

theorem goodJob_applyPatch_retrying (c : Job) (pname : String) (na : Nat)
    (le : String) (now : Nat) (hg : GoodJob c) :
    GoodJob (applyPatch c
      { status := some .retrying, provider := some (some pname),
        nextAttemptAt := some na, failedAt := some none,
        lastError := some (some le) } now) := by
  obtain ⟨h1, h2, h3, h4, h5, h6, h7, h8⟩ := hg
  exact ⟨h1, h2, h3, h4, h5, h6, h7, fun hs => Status.noConfusion hs⟩

theorem goodJob_applyPatch_retryRequested (c : Job) (now : Nat)
    (hg : GoodJob c) :
    GoodJob (applyPatch c
      { status := some .retrying, nextAttemptAt := some now,
        failedAt := some none, lastError := some none } now) := by
  obtain ⟨h1, h2, h3, h4, h5, h6, h7, h8⟩ := hg
  exact ⟨h1, h2, h3, h4, h5, h6, h7, fun hs => Status.noConfusion hs⟩

theorem goodJob_applyPatch_sent (c : Job) (pname : String) (now : Nat)
    (hg : GoodJob c) :
    GoodJob (applyPatch c
      { status := some .sent, provider := some (some pname),
        sentAt := some (some now), failedAt := some none,
        lastError := some none } now) := by
  obtain ⟨h1, h2, h3, h4, h5, h6, h7, h8⟩ := hg
  exact ⟨h1, h2, h3, h4, h5, h6, h7, fun _ => ⟨rfl, rfl⟩⟩

theorem goodJob_applyPatch_processing (c : Job) (pname : String) (att : Nat)
    (now : Nat) (hg : GoodJob c) (hatt : att ≤ c.maxAttempts) :
    GoodJob (applyPatch c
      { status := some .processing, provider := some (some pname),
        attempts := some att, lastAttemptAt := some (some now),
        lastError := some none } now) := by
  obtain ⟨h1, h2, h3, h4, h5, h6, h7, h8⟩ := hg
  exact ⟨hatt, h2, h3, h4, h5, h6, h7, fun hs => Status.noConfusion hs⟩

theorem markAttemptFailure_effects (opts : ServiceOptions) (now : Nat)
    (job cur : Job) (provider : Provider) (attempt : Nat) (message : String)
    (S : Store) (hInv : Inv S)
    (hbt : jsTrim job.businessId = job.businessId) (hb0 : job.businessId ≠ "")
    (hmt : jsTrim job.message = job.message) (hm0 : job.message ≠ "")
    (hma : 1 ≤ job.maxAttempts) (hma10 : job.maxAttempts ≤ 10)
    (hcur : S.getById job.id = some cur) :
    ∃ out r S',
      markAttemptFailure opts now job provider attempt message S =
        (.ok (out, r), S') ∧
      Inv S' ∧ S.nextId ≤ S'.nextId ∧
      (∀ i x, i ≠ job.id → S.getById i = some x → S'.getById i = some x) ∧
      (out = .failed ∨ out = .retrying) := by
  have hInv1 : Inv (S.createAuditLog
      (attemptFailedParams job provider attempt message) now).2 :=
    inv_createAuditLog S _ now hInv
  obtain ⟨queued, skipped, T', hqpf, hInvT, hnext, hframe⟩ :=
    queuePushFallbackJobs_effects opts now job provider attempt message
      (S.createAuditLog (attemptFailedParams job provider attempt message) now).2
      hInv1 hbt hb0 hmt hm0 hma hma10
  have hcurT : T'.getById job.id = some cur := hframe job.id cur hcur
  have hgcur : GoodJob cur := hInvT.good cur (mem_of_getById T' job.id cur hcurT)
  simp only [markAttemptFailure]
  rw [hqpf]
  dsimp only
  split
  · rw [updateJob_fst_of_getById T' job.id _ now cur hcurT]
    dsimp only
    refine ⟨.failed, _, _, rfl, ?_, ?_, ?_, Or.inl rfl⟩
    · exact inv_updateJob T' job.id _ now cur hInvT hcurT
        (goodJob_applyPatch_failed cur provider.name
          (fallbackLastError queued) now hgcur)
    · exact hnext
    · intro i x hne h
      rw [getById_updateJob_ne T' job.id i _ now hne]
      exact hframe i x h
  · split
    · rw [updateJob_fst_of_getById T' job.id _ now cur hcurT]
      dsimp only
      refine ⟨.failed, _, _, rfl, ?_, ?_, ?_, Or.inl rfl⟩
      · refine inv_createAuditLog _ _ now ?_
        exact inv_updateJob T' job.id _ now cur hInvT hcurT
          (goodJob_applyPatch_failed cur provider.name message now hgcur)
      · exact hnext
      · intro i x hne h
        rw [getById_createAuditLog, getById_updateJob_ne T' job.id i _ now hne]
        exact hframe i x h
    · rw [updateJob_fst_of_getById T' job.id _ now cur hcurT]
      dsimp only
      refine ⟨.retrying, _, _, rfl, ?_, ?_, ?_, Or.inr rfl⟩
      · refine inv_createAuditLog _ _ now ?_
        exact inv_updateJob T' job.id _ now cur hInvT hcurT
          (goodJob_applyPatch_retrying cur provider.name
            (now + computeRetryDelayMs opts attempt) message now hgcur)
      · exact hnext
      · intro i x hne h
        rw [getById_createAuditLog, getById_updateJob_ne T' job.id i _ now hne]
        exact hframe i x h

theorem markSent_effects (now : Nat) (jid : Nat) (ch : Channel)
    (pname : String) (attempt : Nat) (pr : ProviderResult) (S : Store)
    (cur : Job) (hInv : Inv S) (hcur : S.getById jid = some cur) :
    ∃ r S',
      markSent now jid ch pname attempt pr S = (.ok r, S') ∧
      Inv S' ∧ S.nextId ≤ S'.nextId ∧
      (∀ i x, i ≠ jid → S.getById i = some x → S'.getById i = some x) := by
  simp only [markSent]
  rw [updateJob_fst_of_getById S jid _ now cur hcur]
  dsimp only
  refine ⟨_, _, rfl, ?_, ?_, ?_⟩
  · exact inv_createAuditLog _ _ now (inv_updateJob S jid _ now cur hInv hcur
      (goodJob_applyPatch_sent cur pname now
        (hInv.good cur (mem_of_getById S jid cur hcur))))
  · exact le_refl S.nextId
  · intro i x hne h
    rw [getById_createAuditLog, getById_updateJob_ne S jid i _ now hne]
    exact h

theorem processJob_effects (opts : ServiceOptions) (now : Nat) (jid : Nat)
    (S : Store) (job : Job) (hInv : Inv S)
    (hfind : S.getById jid = some job)
    (hbudget : job.attempts < job.maxAttempts) :
    ∃ out r S',
      processJob opts now jid S = (.ok (out, r), S') ∧
      Inv S' ∧ S.nextId ≤ S'.nextId ∧
      (∀ i x, i ≠ jid → S.getById i = some x → S'.getById i = some x) ∧
      (out = .sent → ∃ pr, (opts.providers job.channel).send
        (buildDispatchInput job (job.attempts + 1)) = .ok pr ∧
        pr.accepted = true) := by
  have hid : job.id = jid := getById_some_id S jid job hfind
  have hfind' : S.getById job.id = some job := by rw [hid]; exact hfind
  have hg := hInv.good job (mem_of_getById S jid job hfind)
  have hupd : (S.updateJob job.id { status := some .processing, provider := some (some (opts.providers job.channel).name), attempts := some (job.attempts + 1), lastAttemptAt := some (some now), lastError := some none } now).1 = some (applyPatch job { status := some .processing, provider := some (some (opts.providers job.channel).name), attempts := some (job.attempts + 1), lastAttemptAt := some (some now), lastError := some none } now) :=
    updateJob_fst_of_getById S job.id _ now job hfind'
  have hInv2 : Inv ((S.updateJob job.id { status := some .processing, provider := some (some (opts.providers job.channel).name), attempts := some (job.attempts + 1), lastAttemptAt := some (some now), lastError := some none } now).2.createAuditLog { jobId := job.id, event := .attempt_started, channel := job.channel, provider := some (opts.providers job.channel).name, attempt := some (job.attempts + 1), message := "Dispatch attempt started", detail := some (.obj [("audience", .str job.audience)]) } now).2 :=
    inv_createAuditLog _ _ now (inv_updateJob S job.id _ now job hInv hfind'
      (goodJob_applyPatch_processing job (opts.providers job.channel).name (job.attempts + 1) now hg (by omega)))
  have hcur2 : (((S.updateJob job.id { status := some .processing, provider := some (some (opts.providers job.channel).name), attempts := some (job.attempts + 1), lastAttemptAt := some (some now), lastError := some none } now).2.createAuditLog { jobId := job.id, event := .attempt_started, channel := job.channel, provider := some (opts.providers job.channel).name, attempt := some (job.attempts + 1), message := "Dispatch attempt started", detail := some (.obj [("audience", .str job.audience)]) } now).2).getById job.id = some (applyPatch job { status := some .processing, provider := some (some (opts.providers job.channel).name), attempts := some (job.attempts + 1), lastAttemptAt := some (some now), lastError := some none } now) := by
    rw [getById_createAuditLog, getById_updateJob_self, hfind']
    rfl
  simp only [processJob]
  rw [hfind]
  dsimp only
  rw [hupd]
  dsimp only
  cases hsend : (opts.providers job.channel).send (buildDispatchInput job (job.attempts + 1)) with
  | ok pr =>
    dsimp only
    by_cases hacc : pr.accepted = true
    · rw [if_pos hacc]
      obtain ⟨r3, S3, hms, hInv3, hn3, hf3⟩ := markSent_effects now job.id job.channel (opts.providers job.channel).name (job.attempts + 1) pr ((S.updateJob job.id { status := some .processing, provider := some (some (opts.providers job.channel).name), attempts := some (job.attempts + 1), lastAttemptAt := some (some now), lastError := some none } now).2.createAuditLog { jobId := job.id, event := .attempt_started, channel := job.channel, provider := some (opts.providers job.channel).name, attempt := some (job.attempts + 1), message := "Dispatch attempt started", detail := some (.obj [("audience", .str job.audience)]) } now).2 (applyPatch job { status := some .processing, provider := some (some (opts.providers job.channel).name), attempts := some (job.attempts + 1), lastAttemptAt := some (some now), lastError := some none } now) hInv2 hcur2
      rw [hms]
      dsimp only
      refine ⟨.sent, r3, S3, rfl, hInv3, hn3, ?_, fun _ => ⟨pr, rfl, hacc⟩⟩
      intro i x hne h
      have hneJ : i ≠ job.id := by rw [hid]; exact hne
      refine hf3 i x hneJ ?_
      rw [getById_createAuditLog, getById_updateJob_ne S job.id i _ now hneJ]
      exact h
    · rw [if_neg hacc]
      obtain ⟨out, r3, S3, hmaf, hInv3, hn3, hf3, horc⟩ := markAttemptFailure_effects opts now job (applyPatch job { status := some .processing, provider := some (some (opts.providers job.channel).name), attempts := some (job.attempts + 1), lastAttemptAt := some (some now), lastError := some none } now) (opts.providers job.channel) (job.attempts + 1) (pr.detail.getD ((opts.providers job.channel).name ++ " rejected notification dispatch")) ((S.updateJob job.id { status := some .processing, provider := some (some (opts.providers job.channel).name), attempts := some (job.attempts + 1), lastAttemptAt := some (some now), lastError := some none } now).2.createAuditLog { jobId := job.id, event := .attempt_started, channel := job.channel, provider := some (opts.providers job.channel).name, attempt := some (job.attempts + 1), message := "Dispatch attempt started", detail := some (.obj [("audience", .str job.audience)]) } now).2 hInv2 hg.2.2.2.1 hg.2.2.2.2.1 hg.2.2.2.2.2.1 hg.2.2.2.2.2.2.1 hg.2.1 hg.2.2.1 hcur2
      rw [hmaf]
      refine ⟨out, r3, S3, rfl, hInv3, hn3, ?_, ?_⟩
      · intro i x hne h
        have hneJ : i ≠ job.id := by rw [hid]; exact hne
        refine hf3 i x hneJ ?_
        rw [getById_createAuditLog, getById_updateJob_ne S job.id i _ now hneJ]
        exact h
      · intro hs
        rcases horc with hh | hh <;> rw [hs] at hh <;> exact Outcome.noConfusion hh
  | error m =>
    dsimp only
    obtain ⟨out, r3, S3, hmaf, hInv3, hn3, hf3, horc⟩ := markAttemptFailure_effects opts now job (applyPatch job { status := some .processing, provider := some (some (opts.providers job.channel).name), attempts := some (job.attempts + 1), lastAttemptAt := some (some now), lastError := some none } now) (opts.providers job.channel) (job.attempts + 1) m ((S.updateJob job.id { status := some .processing, provider := some (some (opts.providers job.channel).name), attempts := some (job.attempts + 1), lastAttemptAt := some (some now), lastError := some none } now).2.createAuditLog { jobId := job.id, event := .attempt_started, channel := job.channel, provider := some (opts.providers job.channel).name, attempt := some (job.attempts + 1), message := "Dispatch attempt started", detail := some (.obj [("audience", .str job.audience)]) } now).2 hInv2 hg.2.2.2.1 hg.2.2.2.2.1 hg.2.2.2.2.2.1 hg.2.2.2.2.2.2.1 hg.2.1 hg.2.2.1 hcur2
    rw [hmaf]
    refine ⟨out, r3, S3, rfl, hInv3, hn3, ?_, ?_⟩
    · intro i x hne h
      have hneJ : i ≠ job.id := by rw [hid]; exact hne
      refine hf3 i x hneJ ?_
      rw [getById_createAuditLog, getById_updateJob_ne S job.id i _ now hneJ]
      exact h
    · intro hs
      rcases horc with hh | hh <;> rw [hs] at hh <;> exact Outcome.noConfusion hh

theorem listDue_mem_spec (S : Store) (now : Nat) (limit : Int) (j : Job)
    (h : j ∈ S.listDue now limit) :
    j ∈ S.notifications ∧ dueJob j now = true := by
  unfold Store.listDue at h
  have h1 : j ∈ (S.notifications.filter (fun j => dueJob j now)).mergeSort
      (fun a b => decide (a.nextAttemptAt ≤ b.nextAttemptAt)) :=
    List.take_subset _ _ h
  rw [List.mem_mergeSort, List.mem_filter] at h1
  exact h1

theorem dueJob_budget (j : Job) (now : Nat) (h : dueJob j now = true) :
    j.attempts < j.maxAttempts :=
  ((dueJob_iff j now).mp h).2.2

theorem listDue_ids_nodup (S : Store) (now : Nat) (limit : Int)
    (hInv : Inv S) : ((S.listDue now limit).map Job.id).Nodup := by
  unfold Store.listDue
  have hfil : ((S.notifications.filter (fun j => dueJob j now)).map Job.id).Nodup :=
    hInv.idNodup.sublist ((List.filter_sublist _).map Job.id)
  have hperm : (((S.notifications.filter (fun j => dueJob j now)).mergeSort
      (fun a b => decide (a.nextAttemptAt ≤ b.nextAttemptAt))).map Job.id).Perm
      ((S.notifications.filter (fun j => dueJob j now)).map Job.id) :=
    (List.mergeSort_perm _ _).map Job.id
  have hms : (((S.notifications.filter (fun j => dueJob j now)).mergeSort
      (fun a b => decide (a.nextAttemptAt ≤ b.nextAttemptAt))).map Job.id).Nodup :=
    hperm.nodup_iff.mpr hfil
  rw [List.map_take]
  exact hms.sublist (List.take_sublist _ _)

theorem runBatch_effects (opts : ServiceOptions) (now : Nat) (batch : List Job)
    (S : Store) (hInv : Inv S)
    (hnd : (batch.map Job.id).Nodup)
    (hbatch : ∀ d ∈ batch, S.getById d.id = some d ∧
      d.attempts < d.maxAttempts) :
    ∃ res S',
      runBatch opts now batch S = (.ok res, S') ∧
      Inv S' ∧ S.nextId ≤ S'.nextId ∧
      (∀ i x, (∀ d ∈ batch, i ≠ d.id) → S.getById i = some x →
        S'.getById i = some x) := by
  induction batch generalizing S with
  | nil => exact ⟨(0, 0, 0, []), S, rfl, hInv, le_refl _, fun i x _ h => h⟩
  | cons d rest ih =>
    rw [List.map_cons, List.nodup_cons] at hnd
    obtain ⟨hdnotin, hndrest⟩ := hnd
    obtain ⟨hfd, hbud⟩ := hbatch d (List.mem_cons_self d rest)
    obtain ⟨out, r, S1, hpj, hInv1, hn1, hf1, -⟩ :=
      processJob_effects opts now d.id S d hInv hfd hbud
    have hbrest : ∀ d' ∈ rest, S1.getById d'.id = some d' ∧
        d'.attempts < d'.maxAttempts := by
      intro d' hd'
      obtain ⟨hfd', hbud'⟩ := hbatch d' (List.mem_cons_of_mem d hd')
      have hne : d'.id ≠ d.id := by
        intro hc
        exact hdnotin (hc ▸ List.mem_map_of_mem Job.id hd')
      exact ⟨hf1 d'.id d' hne hfd', hbud'⟩
    obtain ⟨res1, S2, hrb, hInv2, hn2, hf2⟩ := ih S1 hInv1 hndrest hbrest
    obtain ⟨cs, cr, cf, cids⟩ := res1
    refine ⟨((if out = .sent then cs + 1 else cs),
        (if out = .retrying then cr + 1 else cr),
        (if out = .failed then cf + 1 else cf), r.id :: cids),
      S2, ?_, hInv2, le_trans hn1 hn2, ?_⟩
    · show runBatch opts now (d :: rest) S = _
      simp only [runBatch]
      rw [hpj]
      dsimp only
      rw [hrb]
    · intro i x hni h
      have hne : i ≠ d.id := hni d (List.mem_cons_self d rest)
      exact hf2 i x (fun d' hd' => hni d' (List.mem_cons_of_mem d hd'))
        (hf1 i x hne h)

theorem processDueJobs_effects (opts : ServiceOptions) (now : Nat)
    (limit : Int) (S : Store) (hInv : Inv S) :
    ∃ res S',
      processDueJobs opts now limit S = (.ok res, S') ∧
      Inv S' ∧ S.nextId ≤ S'.nextId ∧
      (∀ i x, (∀ d ∈ S.listDue now (max 1 limit), i ≠ d.id) →
        S.getById i = some x → S'.getById i = some x) := by
  have hbatch : ∀ d ∈ S.listDue now (max 1 limit),
      S.getById d.id = some d ∧ d.attempts < d.maxAttempts := by
    intro d hd
    obtain ⟨hmem, hdue⟩ := listDue_mem_spec S now (max 1 limit) d hd
    exact ⟨getById_of_mem S d hInv hmem, dueJob_budget d now hdue⟩
  obtain ⟨res, S', hrb, hInv', hn', hf'⟩ :=
    runBatch_effects opts now (S.listDue now (max 1 limit)) S hInv
      (listDue_ids_nodup S now (max 1 limit) hInv) hbatch
  obtain ⟨cs, cr, cf, cids⟩ := res
  refine ⟨{ processed := (S.listDue now (max 1 limit)).length, sent := cs, retried := cr, failed := cf, jobIds := cids }, S', ?_, hInv', hn', hf'⟩
  simp only [processDueJobs]
  rw [hrb]

theorem retryJob_effects (now : Nat) (jid : Nat) (S : Store) (hInv : Inv S) :
    Inv (retryJob now jid S).2 := by
  simp only [retryJob]
  cases hfind : S.getById jid with
  | none => exact hInv
  | some ex =>
    dsimp only
    have hfind' : S.getById ex.id = some ex := by
      rw [getById_some_id S jid ex hfind]
      exact hfind
    by_cases hsent : ex.status = .sent
    · rw [if_pos hsent]
      exact hInv
    · rw [if_neg hsent]
      by_cases hbud : ex.maxAttempts ≤ ex.attempts
      · rw [if_pos hbud]
        exact hInv
      · rw [if_neg hbud]
        rw [updateJob_fst_of_getById S ex.id _ now ex hfind']
        dsimp only
        exact inv_createAuditLog _ _ now
          (inv_updateJob S ex.id _ now ex hInv hfind'
            (goodJob_applyPatch_retryRequested ex now
              (hInv.good ex (mem_of_getById S jid ex hfind))))

/-- The stores the notification engine can actually produce: everything
obtained from the empty store by enqueuing, batch-processing and manual
retries. -/
inductive Reachable : Store → Prop where
  | empty : Reachable emptyStore
  | enqueue (opts : ServiceOptions) (now : Nat) (input : QueueInput)
      (S : Store) : Reachable S → Reachable (queueNotification opts now input S).2
  | process (opts : ServiceOptions) (now : Nat) (limit : Int) (S : Store) :
      Reachable S → Reachable (processDueJobs opts now limit S).2
  | retry (now : Nat) (jid : Nat) (S : Store) :
      Reachable S → Reachable (retryJob now jid S).2

theorem reachable_inv (S : Store) (h : Reachable S) : Inv S := by
  induction h with
  | empty => exact inv_emptyStore
  | enqueue opts now input S _ ih =>
    exact (queueNotification_effects opts now input S ih).1
  | process opts now limit S _ ih =>
    obtain ⟨res, S', heq, hInv', _, _⟩ := processDueJobs_effects opts now limit S ih
    rw [heq]
    exact hInv'
  | retry now jid S _ ih =>
    exact retryJob_effects now jid S ih

theorem queueNotification_ok_shape (opts : ServiceOptions) (now : Nat)
    (input : QueueInput) (S : Store) (j : Job)
    (h : (queueNotification opts now input S).1 = .ok j) :
    ∃ ch, j = queuedJobOf opts now input ch S ∧
      ¬ (jsTrim input.businessId = "" ∨ jsTrim input.message = "") ∧
      ¬ (resolveMaxAttempts opts input.maxAttempts < 1 ∨
        10 < resolveMaxAttempts opts input.maxAttempts) := by
  by_cases hval : jsTrim input.businessId = "" ∨ jsTrim input.message = ""
  · rw [queueNotification_err_val opts now input S hval] at h
    exact absurd h (by simp)
  · cases hch : parseChannel (jsToLower (jsTrim input.channel)) with
    | none =>
      rw [queueNotification_err_channel opts now input S hval hch] at h
      exact absurd h (by simp)
    | some ch =>
      by_cases hrange : resolveMaxAttempts opts input.maxAttempts < 1 ∨
          10 < resolveMaxAttempts opts input.maxAttempts
      · rw [queueNotification_err_range opts now input S ch hval hch hrange] at h
        exact absurd h (by simp)
      · by_cases harr : isArr input.metadata = true
        · rw [queueNotification_err_arr opts now input S ch hval hch hrange harr] at h
          exact absurd h (by simp)
        · rw [queueNotification_ok opts now input S ch hval hch hrange harr] at h
          exact ⟨ch, (Except.ok.inj h).symm, hval, hrange⟩

/-- C3: in every state reachable from the empty store through the core
operations, every job satisfies `0 ≤ attempts ≤ maxAttempts`; enqueue
creates jobs with `attempts = 0` and `maxAttempts ≥ 1`; `listDue` only
selects jobs with `attempts < maxAttempts` (so a processing step
increments a budget-respecting job); and a manual retry of an unsent job
whose budget is exhausted is refused with a 409, leaving the store
untouched. -/
theorem C3_attempts_invariant :
    (∀ S, Reachable S → ∀ j ∈ S.notifications,
      0 ≤ j.attempts ∧ j.attempts ≤ j.maxAttempts) ∧
    (∀ (opts : ServiceOptions) (now : Nat) (input : QueueInput) (S : Store)
      (j : Job), (queueNotification opts now input S).1 = .ok j →
      j.attempts = 0 ∧ 1 ≤ j.maxAttempts) ∧
    (∀ (S : Store) (now : Nat) (limit : Int) (j : Job),
      j ∈ S.listDue now limit → j.attempts < j.maxAttempts) ∧
    (∀ (now : Nat) (jid : Nat) (S : Store) (job : Job),
      S.getById jid = some job → job.status ≠ .sent →
      job.maxAttempts ≤ job.attempts →
      retryJob now jid S =
        (.error ⟨409, "Retry budget exhausted for this job"⟩, S)) := by
  refine ⟨?_, ?_, ?_, ?_⟩
  · intro S h j hj
    exact ⟨Nat.zero_le j.attempts, ((reachable_inv S h).good j hj).1⟩
  · intro opts now input S j h
    obtain ⟨ch, hj, hval, hrange⟩ := queueNotification_ok_shape opts now input S j h
    subst hj
    exact ⟨rfl, (goodJob_queuedJobOf opts now input ch S hval hrange).2.1⟩
  · intro S now limit j hj
    exact dueJob_budget j now (listDue_mem_spec S now limit j hj).2
  · intro now jid S job hfind hsent hbud
    simp only [retryJob]
    rw [hfind]
    dsimp only
    rw [if_neg hsent, if_pos hbud]

/-- C5: a batch run over any reachable store always returns an ordinary
result — provider rejections and thrown provider errors never surface as
an exception from `processDueJobs`; a failing dispatch attempt yields a
`retrying` or `failed` outcome — never an error; and the noop provider
wired for an unconfigured channel always reports an ordinary thrown
failure (its 503 message), driving that same path. -/
theorem C5_no_provider_exception :
    (∀ S, Reachable S → ∀ (opts : ServiceOptions) (now : Nat) (limit : Int),
      ∃ res, (processDueJobs opts now limit S).1 = .ok res) ∧
    (∀ S, Reachable S → ∀ (opts : ServiceOptions) (now : Nat) (jid : Nat)
      (job : Job), S.getById jid = some job → job.attempts < job.maxAttempts →
      ∃ out r, (processJob opts now jid S).1 = .ok (out, r) ∧
        (((∃ msg, (opts.providers job.channel).send
            (buildDispatchInput job (job.attempts + 1)) = .error msg) ∨
          (∃ pr, (opts.providers job.channel).send
            (buildDispatchInput job (job.attempts + 1)) = .ok pr ∧
            pr.accepted = false)) →
          out = .retrying ∨ out = .failed)) ∧
    (∀ (ch : Channel) (input : DispatchInput), (noopProvider ch).send input =
      .error (channelUpper ch ++ " provider is not configured yet")) := by
  refine ⟨?_, ?_, ?_⟩
  · intro S h opts now limit
    obtain ⟨res, S', heq, _, _, _⟩ :=
      processDueJobs_effects opts now limit S (reachable_inv S h)
    refine ⟨res, ?_⟩
    rw [heq]
  · intro S h opts now jid job hfind hbud
    obtain ⟨out, r, S', hpj, _, _, _, hsent⟩ :=
      processJob_effects opts now jid S job (reachable_inv S h) hfind hbud
    refine ⟨out, r, by rw [hpj], ?_⟩
    intro hfail
    cases out with
    | sent =>
      exfalso
      obtain ⟨pr, hok, hacc⟩ := hsent rfl
      rcases hfail with ⟨msg, hmsg⟩ | ⟨pr2, hok2, hacc2⟩
      · rw [hok] at hmsg
        exact Except.noConfusion hmsg
      · rw [hok] at hok2
        have hpr : pr = pr2 := Except.ok.inj hok2
        rw [← hpr, hacc] at hacc2
        exact Bool.noConfusion hacc2
    | retrying => exact Or.inl rfl
    | failed => exact Or.inr rfl
  · intro ch input
    rfl

/-- C9: in every reachable state a `sent` job carries a `sentAt` timestamp
and a null `failedAt`; `listDue` never selects a sent job; a manual retry
of a sent job is rejected with the 409 conflict and the store is
unchanged; and a batch run leaves the record of a sent job untouched. -/
theorem C9_sent_terminal :
    (∀ S, Reachable S → ∀ j ∈ S.notifications, j.status = .sent →
      j.sentAt.isSome = true ∧ j.failedAt = none) ∧
    (∀ (S : Store) (now : Nat) (limit : Int) (j : Job),
      j ∈ S.listDue now limit → j.status ≠ .sent) ∧
    (∀ S, Reachable S → ∀ j ∈ S.notifications, j.status = .sent →
      (∀ (now : Nat), retryJob now j.id S =
        (.error ⟨409, "Sent jobs cannot be retried"⟩, S)) ∧
      (∀ (opts : ServiceOptions) (now : Nat) (limit : Int),
        (processDueJobs opts now limit S).2.getById j.id = some j)) := by
  refine ⟨?_, ?_, ?_⟩
  · intro S h j hj hsent
    exact ((reachable_inv S h).good j hj).2.2.2.2.2.2.2 hsent
  · intro S now limit j hj hsent
    have hdue := (listDue_mem_spec S now limit j hj).2
    rcases ((dueJob_iff j now).mp hdue).1 with h | h <;> rw [hsent] at h <;>
      exact Status.noConfusion h
  · intro S h j hj hsent
    have hInv := reachable_inv S h
    have hfind : S.getById j.id = some j := getById_of_mem S j hInv hj
    constructor
    · intro now
      simp only [retryJob]
      rw [hfind]
      dsimp only
      rw [if_pos hsent]
    · intro opts now limit
      obtain ⟨res, S', heq, _, _, hf⟩ :=
        processDueJobs_effects opts now limit S hInv
      rw [heq]
      refine hf j.id j ?_ hfind
      intro d hd hc
      have hdmem := (listDue_mem_spec S now (max 1 limit) d hd).1
      have hddue := (listDue_mem_spec S now (max 1 limit) d hd).2
      have hdj : d = j :=
        List.inj_on_of_nodup_map hInv.idNodup hdmem hj hc.symm
      subst hdj
      rcases ((dueJob_iff d now).mp hddue).1 with hh | hh <;>
        rw [hsent] at hh <;> exact Status.noConfusion hh

/-- Fixture: an otherwise-valid enqueue input whose audience is
whitespace-only. -/
def cInputEmptyAud : QueueInput :=
  { businessId := "biz-2", channel := "email", audience := "   ",
    subject := none, message := "hey", metadata := none, maxAttempts := none }

/-- Fixture: a queued push job carrying both flat fallback audiences. -/
def cPushJob : Job :=
  { id := 0, businessId := "biz-3", channel := .push, audience := "all",
    subject := none, message := "m",
    metadata := some (.obj
      [("fallbackEmailAudience", .str "ops"),
       ("fallbackSmsAudience", .str "+15550100")]),
    status := .queued, provider := none, attempts := 0, maxAttempts := 3,
    nextAttemptAt := 0, lastAttemptAt := none, sentAt := none,
    failedAt := none, lastError := none, createdAt := 0, updatedAt := 0 }

/-- Fixture: a store holding just the push job. -/
def cStore : Store :=
  { notifications := [cPushJob], auditLogs := [], nextId := 1,
    nextAuditId := 1 }

/-- Concrete instance of the push-fallback claim: dispatching the fixture
push job through the unconfigured (noop) push provider fails the job and
queues its fallbacks. -/
theorem C1_push_fallback_witness :
    ∃ (r : Job) (S' : Store),
      processJob cOpts 1000 0 cStore = (.ok (.failed, r), S') ∧
      r.status = .failed ∧ r.attempts = 1 := by
  obtain ⟨r, S', newE, heq, -, hst, -, hatt, -, -, -, -, -, -, -⟩ :=
    C1_push_fallback cOpts 1000 0 cStore cPushJob rfl rfl (by decide)
      (by decide) (by decide) (by decide) (by decide) (by decide)
      (Or.inl (by decide))
      (Or.inl ⟨"PUSH provider is not configured yet", rfl⟩)
  exact ⟨r, S', heq, hst, hatt⟩

/-- Concrete instance of the retry-backoff formula at the fixture
options. -/
theorem C4_retry_backoff_witness :
    computeRetryDelayMs cOpts 3 =
      min cOpts.retryMaxMs (cOpts.retryBaseMs * 2 ^ (3 - 1)) :=
  (C4_retry_backoff cOpts (by decide) (by decide)).1 3 (by decide)

/-- Concrete instance of the amended maxAttempts claim: the falsy `0`
supplied by the fixture input resolves to the configured default. -/
theorem C8_maxAttempts_amended_witness :
    resolveMaxAttempts cOpts cInputZero.maxAttempts = ((3 : Nat) : Int) :=
  (C8_maxAttempts_amended cOpts 1000 cInputZero emptyStore .email
    (by decide) (by decide)).2.1 0 rfl rfl

/-- Concrete instance of the audience-defaulting claim: the fixture input
with a whitespace-only audience enqueues a job whose audience is
`"all"`. -/
theorem C10_audience_defaults_witness :
    ∃ j S', queueNotification cOpts 1000 cInputEmptyAud emptyStore =
      (.ok j, S') ∧ j.audience = "all" := by
  obtain ⟨j, S', heq, haud, -, -, -⟩ :=
    C10_audience_defaults cOpts 1000 cInputEmptyAud emptyStore .email
      (by decide) (by decide) (by decide) (by decide) (by decide)
  exact ⟨j, S', heq, haud⟩

end WsApi
